import Mathlib

/-!
# Verification of the conversation-state-driven text analysis pipeline

Shallow embedding, in Lean 4, of the core analysis pipeline of a
voice-driven bookstore sales assistant:

* `backend/services/sentiment_analysis.py` — multi-pass sentiment scorer,
  per-conversation history with FIFO cap, neutral fallback;
* `backend/services/question_generator.py` — conversation-stage
  classification and template question selection;
* `backend/core/call_summary_generator.py` — objection extraction,
  addressed/unresolved concerns, outcome classification and satisfaction;
* `backend/main.py` — `extract_order_data`, the regex-cascade order-field
  extractor (embedded together with a small backtracking regex matcher
  that follows Python `re.search` semantics: leftmost match, alternatives
  in order, greedy/lazy bounded repetition, `(?i)`, `\b`, `$`).

Machine floats in the source are modelled as exact rationals (`ℚ`); the
`datetime` timestamps and processing-time metadata, which no claim
mentions, are omitted from the records.  External library calls (OpenAI,
transformers, VADER, TextBlob) are modelled as opaque pass results: a
pass either fails (`err`, covering raised exceptions and `{"error": ...}`
dictionaries) or yields a dictionary of optional fields.
-/

namespace AiSales

/-! ## Substring search (Python's `in` operator on strings) -/

/-- `subListAt pat l` : does `pat` occur as a leading run of `l`? -/
def subListAt : List Char → List Char → Bool
  | [], _ => true
  | _ :: _, [] => false
  | a :: as, b :: bs => a = b && subListAt as bs

/-- Does `pat` occur anywhere inside `l`?  (Python `pat in s`.) -/
def subListAny (pat : List Char) : List Char → Bool
  | [] => pat.isEmpty
  | c :: t => subListAt pat (c :: t) || subListAny pat t

/-- Python `sub in s` for strings. -/
def strContains (s sub : String) : Bool :=
  subListAny sub.data s.data

/-! ### Structural re-implementations of basic string operations

Python `str.strip` / `str.lower` / `str.join` / slicing / `int()` are
modelled by hand on the character list (restricted to ASCII, which is all
the source's patterns and keyword tables use), so that concrete
evaluations reduce inside the kernel. -/

/-- ASCII whitespace (the characters Python's `str.strip` removes on the
inputs this code handles). -/
def isWsChar (c : Char) : Bool :=
  c = ' ' || c = '\t' || c = '\n' || c = '\r' || c = '\x0b' || c = '\x0c'

/-- Drop leading whitespace characters. -/
def dropWs : List Char → List Char
  | [] => []
  | c :: t => if isWsChar c then dropWs t else c :: t

/-- Python `str.strip()`. -/
def pyStrip (s : String) : String :=
  String.mk (((dropWs s.data).reverse |> dropWs).reverse)

/-- ASCII lower-casing of one character (Python `str.lower`). -/
def charLower (c : Char) : Char :=
  if 'A' ≤ c ∧ c ≤ 'Z' then Char.ofNat (c.toNat + 32) else c

/-- ASCII upper-casing of one character. -/
def charUpper (c : Char) : Char :=
  if 'a' ≤ c ∧ c ≤ 'z' then Char.ofNat (c.toNat - 32) else c

/-- Python `str.lower()`. -/
def pyLower (s : String) : String :=
  String.mk (s.data.map charLower)

/-- Python `s[:n]` (slicing by code points). -/
def pyTake (s : String) (n : ℕ) : String :=
  String.mk (s.data.take n)

/-- Python `"\n".join(...)`. -/
def joinNl : List String → String
  | [] => ""
  | [s] => s
  | s :: rest => s ++ "\n" ++ joinNl rest

/-- Helper for `pyToNat`: digits to number, `none` on a non-digit. -/
def digitsToNat : List Char → ℕ → Option ℕ
  | [], acc => some acc
  | c :: t, acc =>
    if '0' ≤ c ∧ c ≤ '9' then digitsToNat t (acc * 10 + (c.toNat - '0'.toNat))
    else none

/-- Python `int(s)` on a non-negative digit string (`none` models the
`ValueError` caught by the surrounding `except`). -/
def pyToNat (s : String) : Option ℕ :=
  if s.data.isEmpty then none else digitsToNat s.data 0

/-! ## Sentiment scorer (`sentiment_analysis.py`)

`SentimentLabel` mirrors the five-point `SentimentLabel` enum. -/

inductive SentimentLabel where
  | veryPositive
  | positive
  | neutral
  | negative
  | veryNegative
deriving DecidableEq

/-- The fields a single analysis pass may report.  Each pass in the source
returns a dictionary; a key may be present or absent, hence `Option`.
(`_analyze_with_openai` returns whatever JSON the model produced;
`_analyze_with_llama` fills sentiment/confidence/polarity;
`_analyze_with_vader` fills sentiment/confidence/polarity;
`_analyze_with_textblob` fills sentiment/confidence/polarity/subjectivity.) -/
structure PassFields where
  sentiment : Option String := none
  confidence : Option ℚ := none
  polarity : Option ℚ := none
  subjectivity : Option ℚ := none
deriving DecidableEq

/-- Outcome of one analysis pass: `err` covers a raised exception (caught
by `asyncio.gather(..., return_exceptions=True)`) and an
`{"error": ...}` dictionary; `ok` is a successful result dictionary. -/
inductive PassResult where
  | err
  | ok (fields : PassFields)
deriving DecidableEq

/-- The five sales metrics computed by `_analyze_sales_context`. -/
structure SalesMetrics where
  purchase_intent : ℚ
  objection_level : ℚ
  trust_level : ℚ
  urgency : ℚ
  engagement : ℚ
deriving DecidableEq

/-- `purchase_keywords` of `_analyze_sales_context`. -/
def purchaseKeywords : List String :=
  ["buy", "purchase", "order", "get", "want", "need", "interested",
   "price", "cost", "how much", "available", "in stock"]

/-- `objection_keywords` of `_analyze_sales_context`. -/
def salesObjectionKeywords : List String :=
  ["but", "however", "expensive", "too much", "can't afford",
   "not sure", "maybe later", "think about it", "not interested"]

/-- `trust_keywords` of `_analyze_sales_context`. -/
def trustKeywords : List String :=
  ["thank you", "great", "perfect", "excellent", "helpful",
   "recommend", "trust", "reliable", "good"]

/-- `urgency_keywords` of `_analyze_sales_context`. -/
def urgencyKeywords : List String :=
  ["urgent", "asap", "quickly", "soon", "immediately", "rush",
   "deadline", "time sensitive"]

/-- `sum(1 for keyword in keywords if keyword in message_lower)`. -/
def keywordHits (messageLower : String) (keywords : List String) : ℕ :=
  (keywords.filter (fun kw => strContains messageLower kw)).length

/-- `_analyze_sales_context` (lines 368–413): keyword-count scores, each
scaled and capped at 1. -/
def analyzeSalesContext (message : String) : SalesMetrics :=
  let messageLower := pyLower message
  let purchaseIntent : ℚ := (keywordHits messageLower purchaseKeywords : ℚ) / (purchaseKeywords.length : ℚ)
  let objectionLevel : ℚ := (keywordHits messageLower salesObjectionKeywords : ℚ) / (salesObjectionKeywords.length : ℚ)
  let trustLevel : ℚ := (keywordHits messageLower trustKeywords : ℚ) / (trustKeywords.length : ℚ)
  let urgency : ℚ := (keywordHits messageLower urgencyKeywords : ℚ) / (urgencyKeywords.length : ℚ)
  { purchase_intent := min (purchaseIntent * 2) 1
    objection_level := min (objectionLevel * 3) 1
    trust_level := min (trustLevel * 2) 1
    urgency := min (urgency * 3) 1
    engagement := min ((message.length : ℚ) / 100) 1 }

/-- The combined per-message score (`SentimentScore` dataclass).  The
`timestamp` and `processing_time` metadata fields are omitted (wall-clock
values, mentioned by no claim). -/
structure SentimentScoreR where
  overall_sentiment : SentimentLabel
  confidence : ℚ
  polarity : ℚ
  subjectivity : ℚ
  intensity : ℚ
  emotions : List (String × ℚ)
  urgency : ℚ
  engagement : ℚ
  satisfaction : ℚ
  purchase_intent : ℚ
  objection_level : ℚ
  trust_level : ℚ
  message_length : ℕ
deriving DecidableEq

/-- One entry of the `polarities` list of `_combine_sentiment_results`:
`result["polarity"] * weight` when the pass succeeded and reported a
polarity, nothing otherwise. -/
def passPolarityTerms (r : PassResult) (w : ℚ) : List ℚ :=
  match r with
  | .err => []
  | .ok f =>
    match f.polarity with
    | some p => [p * w]
    | none => []

/-- One entry of the `confidences` list of `_combine_sentiment_results`. -/
def passConfidenceTerms (r : PassResult) (w : ℚ) : List ℚ :=
  match r with
  | .err => []
  | .ok f =>
    match f.confidence with
    | some c => [c * w]
    | none => []

/-- `polarities` list for the fixed pass order and weights
`[(openai, 0.3), (llama, 0.25), (vader, 0.25), (textblob, 0.2)]`. -/
def polarityList (o l v t : PassResult) : List ℚ :=
  passPolarityTerms o 0.3 ++ passPolarityTerms l 0.25 ++
    passPolarityTerms v 0.25 ++ passPolarityTerms t 0.2

/-- `confidences` list, same pass order and weights. -/
def confidenceList (o l v t : PassResult) : List ℚ :=
  passConfidenceTerms o 0.3 ++ passConfidenceTerms l 0.25 ++
    passConfidenceTerms v 0.25 ++ passConfidenceTerms t 0.2

/-- `overall_polarity = sum(polarities) if polarities else 0.0`. -/
def overallPolarity (o l v t : PassResult) : ℚ :=
  if (polarityList o l v t).isEmpty then 0 else (polarityList o l v t).sum

/-- `overall_confidence = sum(confidences) if confidences else 0.5`. -/
def overallConfidence (o l v t : PassResult) : ℚ :=
  if (confidenceList o l v t).isEmpty then 0.5 else (confidenceList o l v t).sum

/-- Threshold mapping of combined polarity to the five-point label. -/
def overallSentimentLabel (p : ℚ) : SentimentLabel :=
  if p > 0.5 then .veryPositive
  else if p > 0.1 then .positive
  else if p < -0.5 then .veryNegative
  else if p < -0.1 then .negative
  else .neutral

/-- The default sales metrics of `_combine_sentiment_results`, used when
the sales-context pass failed. -/
def defaultSalesMetrics : SalesMetrics :=
  { purchase_intent := 0.5, objection_level := 0, trust_level := 0.5,
    urgency := 0, engagement := 0.5 }

/-- `subjectivity=textblob_result.get("subjectivity", 0.5) if
isinstance(textblob_result, dict) else 0.5` — an error dictionary carries
no `subjectivity` key, so both failure shapes give `0.5`. -/
def subjectivityFromTextblob (t : PassResult) : ℚ :=
  match t with
  | .ok f => f.subjectivity.getD 0.5
  | .err => 0.5

/-- `_combine_sentiment_results` (lines 415–487).  `emotionsResult` is the
`emotions` dictionary of `_analyze_emotions` when that pass succeeded;
`salesContext` is the result of `_analyze_sales_context` when that pass
succeeded (its `except` arm yields `none`, in which case the defaults are
kept, mirroring `sales_metrics.update(sales_context)` overwriting all
five keys on success). -/
def combineSentimentResults (o l v t : PassResult)
    (emotionsResult : Option (List (String × ℚ)))
    (salesContext : Option SalesMetrics) (message : String) :
    SentimentScoreR :=
  let p := overallPolarity o l v t
  let sm := salesContext.getD defaultSalesMetrics
  { overall_sentiment := overallSentimentLabel p
    confidence := overallConfidence o l v t
    polarity := p
    subjectivity := subjectivityFromTextblob t
    intensity := |p|
    emotions := emotionsResult.getD []
    urgency := sm.urgency
    engagement := sm.engagement
    satisfaction := max 0 p
    purchase_intent := sm.purchase_intent
    objection_level := sm.objection_level
    trust_level := sm.trust_level
    message_length := message.length }

/-- `_create_neutral_sentiment` (lines 489–507). -/
def neutralScore : SentimentScoreR :=
  { overall_sentiment := .neutral
    confidence := 0.5
    polarity := 0
    subjectivity := 0.5
    intensity := 0
    emotions := []
    urgency := 0
    engagement := 0.5
    satisfaction := 0.5
    purchase_intent := 0.5
    objection_level := 0
    trust_level := 0.5
    message_length := 0 }

/-- The history update of `analyze_message_sentiment` (lines 214–218):
append, then keep only the last 50 entries. -/
def updateHistory {α : Type} (h : List α) (s : α) : List α :=
  if 50 < (h ++ [s]).length then (h ++ [s]).drop ((h ++ [s]).length - 50) else h ++ [s]

/-- `analyze_message_sentiment` (lines 178–224), modelled at the level of
the per-user history map.  The four polarity passes, the emotion pass and
the message are inputs; the sales-context pass is the deterministic
`_analyze_sales_context` applied to the cleaned message (line 198).
Returns the score together with the updated history map. -/
def analyzeMessageSentiment (hists : String → List SentimentScoreR)
    (userId message : String) (o l v t : PassResult)
    (emotionsResult : Option (List (String × ℚ))) :
    SentimentScoreR × (String → List SentimentScoreR) :=
  let messageClean := pyStrip message
  if messageClean = "" then (neutralScore, hists)
  else
    let score := combineSentimentResults o l v t emotionsResult
      (some (analyzeSalesContext messageClean)) messageClean
    (score, fun uid => if uid = userId then updateHistory (hists userId) score else hists uid)

/-! ### Spec-side definitions for claims C1 and C3

These follow the words of the specification, to be compared with the
source-derived definitions above. -/

/-- The polarity a pass reported, if it yielded a result carrying one. -/
def polarityOf : PassResult → Option ℚ
  | .err => none
  | .ok f => f.polarity

/-- The confidence a pass reported, if it yielded a result carrying one. -/
def confidenceOf : PassResult → Option ℚ
  | .err => none
  | .ok f => f.confidence

/-- The subjectivity a pass reported, if it yielded a result carrying one. -/
def subjectivityOf : PassResult → Option ℚ
  | .err => none
  | .ok f => f.subjectivity

/-- Spec-side (claim C1 as written): weighted average of the present
values with the weights renormalized over only the present passes. -/
def renormalizedAverage (xs : List (Option ℚ × ℚ)) : Option ℚ :=
  let present := xs.filterMap (fun p => p.1.map (fun v => (v, p.2)))
  if present.isEmpty then none
  else some ((present.map (fun q => q.1 * q.2)).sum / (present.map (fun q => q.2)).sum)

/-- Claim C1 as written, for polarity. -/
def renormalizedPolarity (o l v t : PassResult) : Option ℚ :=
  renormalizedAverage
    [(polarityOf o, 0.3), (polarityOf l, 0.25), (polarityOf v, 0.25), (polarityOf t, 0.2)]

/-- Claim C1 as written, for confidence. -/
def renormalizedConfidence (o l v t : PassResult) : Option ℚ :=
  renormalizedAverage
    [(confidenceOf o, 0.3), (confidenceOf l, 0.25), (confidenceOf v, 0.25), (confidenceOf t, 0.2)]

/-- Amended spec: plain weighted sum with the fixed weights, absent
passes contributing 0. -/
def weightedPolaritySum (o l v t : PassResult) : ℚ :=
  ((polarityOf o).getD 0) * 0.3 + ((polarityOf l).getD 0) * 0.25 +
    ((polarityOf v).getD 0) * 0.25 + ((polarityOf t).getD 0) * 0.2

/-- Amended spec: plain weighted sum of the available confidences. -/
def weightedConfidenceSum (o l v t : PassResult) : ℚ :=
  ((confidenceOf o).getD 0) * 0.3 + ((confidenceOf l).getD 0) * 0.25 +
    ((confidenceOf v).getD 0) * 0.25 + ((confidenceOf t).getD 0) * 0.2

/-- Does any pass carry a confidence value? -/
def anyConfidenceAvailable (o l v t : PassResult) : Bool :=
  (confidenceOf o).isSome || (confidenceOf l).isSome ||
    (confidenceOf v).isSome || (confidenceOf t).isSome

/-! ### Helper lemmas for the sentiment scorer -/

theorem passPolarityTerms_sum (r : PassResult) (w : ℚ) :
    (passPolarityTerms r w).sum = ((polarityOf r).getD 0) * w := by
  cases r with
  | err => simp [passPolarityTerms, polarityOf]
  | ok f =>
    cases hp : f.polarity <;> simp [passPolarityTerms, polarityOf, hp]

theorem passConfidenceTerms_sum (r : PassResult) (w : ℚ) :
    (passConfidenceTerms r w).sum = ((confidenceOf r).getD 0) * w := by
  cases r with
  | err => simp [passConfidenceTerms, confidenceOf]
  | ok f =>
    cases hp : f.confidence <;> simp [passConfidenceTerms, confidenceOf, hp]

theorem passConfidenceTerms_isEmpty (r : PassResult) (w : ℚ) :
    (passConfidenceTerms r w).isEmpty = !(confidenceOf r).isSome := by
  cases r with
  | err => simp [passConfidenceTerms, confidenceOf]
  | ok f =>
    cases hp : f.confidence <;> simp [passConfidenceTerms, confidenceOf, hp]

theorem isEmpty_append_eq (a b : List ℚ) :
    (a ++ b).isEmpty = (a.isEmpty && b.isEmpty) := by
  cases a <;> simp

theorem polarityList_sum (o l v t : PassResult) :
    (polarityList o l v t).sum = weightedPolaritySum o l v t := by
  simp only [polarityList, weightedPolaritySum, List.sum_append, passPolarityTerms_sum]

theorem overallPolarity_eq (o l v t : PassResult) :
    overallPolarity o l v t = weightedPolaritySum o l v t := by
  unfold overallPolarity
  by_cases hE : (polarityList o l v t).isEmpty
  · have h0 : polarityList o l v t = [] := by
      simpa [List.isEmpty_iff] using hE
    have := polarityList_sum o l v t
    rw [h0] at this
    simp [hE, ← this]
  · simp [hE, polarityList_sum]

theorem overallConfidence_eq (o l v t : PassResult) :
    overallConfidence o l v t =
      if anyConfidenceAvailable o l v t then weightedConfidenceSum o l v t else 0.5 := by
  unfold overallConfidence
  have hlist : (confidenceList o l v t).isEmpty = !anyConfidenceAvailable o l v t := by
    simp only [confidenceList, anyConfidenceAvailable, isEmpty_append_eq,
      passConfidenceTerms_isEmpty]
    cases confidenceOf o <;> cases confidenceOf l <;> cases confidenceOf v <;>
      cases confidenceOf t <;> rfl
  have hsum : (confidenceList o l v t).sum = weightedConfidenceSum o l v t := by
    simp only [confidenceList, weightedConfidenceSum, List.sum_append, passConfidenceTerms_sum]
  rw [hlist, hsum]
  cases h : anyConfidenceAvailable o l v t <;> simp [h]

/-! ### Boundedness lemmas for the sentiment scorer -/

/-- An optional value that, when present, lies in `[-1, 1]`. -/
def BoundedPM1 (x : Option ℚ) : Prop := ∀ q, x = some q → -1 ≤ q ∧ q ≤ 1

/-- An optional value that, when present, lies in `[0, 1]`. -/
def Bounded01 (x : Option ℚ) : Prop := ∀ q, x = some q → 0 ≤ q ∧ q ≤ 1

/-- All five sales metrics lie in `[0, 1]`. -/
def SalesBounded (m : SalesMetrics) : Prop :=
  (0 ≤ m.purchase_intent ∧ m.purchase_intent ≤ 1) ∧
  (0 ≤ m.objection_level ∧ m.objection_level ≤ 1) ∧
  (0 ≤ m.trust_level ∧ m.trust_level ≤ 1) ∧
  (0 ≤ m.urgency ∧ m.urgency ≤ 1) ∧
  (0 ≤ m.engagement ∧ m.engagement ≤ 1)

theorem min_cap_bounds (x : ℚ) (hx : 0 ≤ x) : 0 ≤ min x 1 ∧ min x 1 ≤ 1 :=
  ⟨le_min hx zero_le_one, min_le_right x 1⟩

theorem analyzeSalesContext_bounded (message : String) :
    SalesBounded (analyzeSalesContext message) := by
  unfold analyzeSalesContext SalesBounded
  refine ⟨?_, ?_, ?_, ?_, ?_⟩ <;> exact min_cap_bounds _ (by positivity)

theorem polarityTerms_sum_bounds (r : PassResult) (w : ℚ) (hw : 0 ≤ w)
    (hb : BoundedPM1 (polarityOf r)) :
    -w ≤ (passPolarityTerms r w).sum ∧ (passPolarityTerms r w).sum ≤ w := by
  cases r with
  | err =>
    simp only [passPolarityTerms, List.sum_nil]
    exact ⟨neg_nonpos.mpr hw, hw⟩
  | ok f =>
    cases hp : f.polarity with
    | none =>
      simp only [passPolarityTerms, hp, List.sum_nil]
      exact ⟨neg_nonpos.mpr hw, hw⟩
    | some p =>
      have hpb := hb p (by simpa [polarityOf] using hp)
      simp only [passPolarityTerms, hp, List.sum_cons, List.sum_nil, add_zero]
      constructor <;> nlinarith [hpb.1, hpb.2]

theorem confidenceTerms_sum_bounds (r : PassResult) (w : ℚ) (hw : 0 ≤ w)
    (hb : Bounded01 (confidenceOf r)) :
    0 ≤ (passConfidenceTerms r w).sum ∧ (passConfidenceTerms r w).sum ≤ w := by
  cases r with
  | err =>
    simp only [passConfidenceTerms, List.sum_nil]
    exact ⟨le_refl 0, hw⟩
  | ok f =>
    cases hp : f.confidence with
    | none =>
      simp only [passConfidenceTerms, hp, List.sum_nil]
      exact ⟨le_refl 0, hw⟩
    | some c =>
      have hcb := hb c (by simpa [confidenceOf] using hp)
      simp only [passConfidenceTerms, hp, List.sum_cons, List.sum_nil, add_zero]
      constructor <;> nlinarith [hcb.1, hcb.2]

theorem overallPolarity_bounds (o l v t : PassResult)
    (ho : BoundedPM1 (polarityOf o)) (hl : BoundedPM1 (polarityOf l))
    (hv : BoundedPM1 (polarityOf v)) (ht : BoundedPM1 (polarityOf t)) :
    -1 ≤ overallPolarity o l v t ∧ overallPolarity o l v t ≤ 1 := by
  have Ho := polarityTerms_sum_bounds o 0.3 (by norm_num) ho
  have Hl := polarityTerms_sum_bounds l 0.25 (by norm_num) hl
  have Hv := polarityTerms_sum_bounds v 0.25 (by norm_num) hv
  have Ht := polarityTerms_sum_bounds t 0.2 (by norm_num) ht
  unfold overallPolarity
  split
  · norm_num
  · simp only [polarityList, List.sum_append]
    constructor <;> nlinarith [Ho.1, Ho.2, Hl.1, Hl.2, Hv.1, Hv.2, Ht.1, Ht.2]

theorem overallConfidence_bounds (o l v t : PassResult)
    (ho : Bounded01 (confidenceOf o)) (hl : Bounded01 (confidenceOf l))
    (hv : Bounded01 (confidenceOf v)) (ht : Bounded01 (confidenceOf t)) :
    0 ≤ overallConfidence o l v t ∧ overallConfidence o l v t ≤ 1 := by
  have Ho := confidenceTerms_sum_bounds o 0.3 (by norm_num) ho
  have Hl := confidenceTerms_sum_bounds l 0.25 (by norm_num) hl
  have Hv := confidenceTerms_sum_bounds v 0.25 (by norm_num) hv
  have Ht := confidenceTerms_sum_bounds t 0.2 (by norm_num) ht
  unfold overallConfidence
  split
  · norm_num
  · simp only [confidenceList, List.sum_append]
    constructor <;> nlinarith [Ho.1, Ho.2, Hl.1, Hl.2, Hv.1, Hv.2, Ht.1, Ht.2]

theorem subjectivityFromTextblob_bounds (t : PassResult)
    (hb : Bounded01 (subjectivityOf t)) :
    0 ≤ subjectivityFromTextblob t ∧ subjectivityFromTextblob t ≤ 1 := by
  cases t with
  | err => norm_num [subjectivityFromTextblob]
  | ok f =>
    cases hp : f.subjectivity with
    | none => norm_num [subjectivityFromTextblob, hp]
    | some q =>
      have := hb q (by simpa [subjectivityOf] using hp)
      simpa [subjectivityFromTextblob, hp] using this

theorem boundedPM1_none : BoundedPM1 none := fun _ h => nomatch h

theorem bounded01_none : Bounded01 none := fun _ h => nomatch h

/-! ### Claim theorems for the sentiment scorer -/

/-- **C1 (counterexample).**  The claim states that when only a subset of
the four polarity passes yields a result, the combined polarity and
confidence are the weighted average renormalized over the present passes
(a single present pass contributing with effective weight 1).  On the
code this is false: with only the TextBlob pass present, reporting
polarity 1 and confidence 1, `_combine_sentiment_results` returns
polarity 0.2 and confidence 0.2 (the fixed weight of the TextBlob pass),
while the renormalized average of the claim is 1. -/
theorem c1_renormalization_counterexample :
    (combineSentimentResults .err .err .err
        (.ok { polarity := some 1, confidence := some 1 }) none none "great").polarity = 0.2 ∧
    (combineSentimentResults .err .err .err
        (.ok { polarity := some 1, confidence := some 1 }) none none "great").confidence = 0.2 ∧
    renormalizedPolarity .err .err .err (.ok { polarity := some 1, confidence := some 1 }) = some 1 ∧
    renormalizedConfidence .err .err .err (.ok { polarity := some 1, confidence := some 1 }) = some 1 ∧
    (0.2 : ℚ) ≠ 1 := by
  refine ⟨?_, ?_, ?_, ?_, by norm_num⟩
  · simp only [combineSentimentResults, overallPolarity, polarityList, passPolarityTerms]
    norm_num
  · simp only [combineSentimentResults, overallConfidence, confidenceList, passConfidenceTerms]
    norm_num
  · simp only [renormalizedPolarity, renormalizedAverage, polarityOf, List.filterMap]
    norm_num
  · simp only [renormalizedConfidence, renormalizedAverage, confidenceOf, List.filterMap]
    norm_num

/-- **C1 (amended).**  The combined polarity and confidence equal the
weighted *sum* of the available passes' values with the fixed weights
0.3/0.25/0.25/0.2; absent passes contribute 0 and the remaining weights
are *not* renormalized, so a single available pass contributes with its
own fixed weight.  When no pass reports a confidence, the combined
confidence defaults to 0.5 (the combined polarity to 0, which the
weighted sum already gives). -/
theorem c1_combined_is_fixed_weight_sum (o l v t : PassResult)
    (emotionsResult : Option (List (String × ℚ)))
    (salesContext : Option SalesMetrics) (message : String) :
    (combineSentimentResults o l v t emotionsResult salesContext message).polarity =
      weightedPolaritySum o l v t ∧
    (combineSentimentResults o l v t emotionsResult salesContext message).confidence =
      (if anyConfidenceAvailable o l v t then weightedConfidenceSum o l v t else 0.5) :=
  ⟨overallPolarity_eq o l v t, overallConfidence_eq o l v t⟩

/-- **C3 (counterexample).**  The claim asserts the returned score's
metrics stay in their documented bounds even for arbitrary structured
output of the external-LLM pass.  False: an OpenAI pass result with
polarity 10 and confidence 5 drives the combined polarity to 3,
confidence to 1.5 and satisfaction to 3 — outside `[-1,1]` resp `[0,1]`. -/
theorem c3_unbounded_llm_counterexample :
    (combineSentimentResults (.ok { polarity := some 10, confidence := some 5 })
        .err .err .err none none "x").polarity = 3 ∧
    (combineSentimentResults (.ok { polarity := some 10, confidence := some 5 })
        .err .err .err none none "x").confidence = 1.5 ∧
    (combineSentimentResults (.ok { polarity := some 10, confidence := some 5 })
        .err .err .err none none "x").satisfaction = 3 ∧
    ¬((combineSentimentResults (.ok { polarity := some 10, confidence := some 5 })
        .err .err .err none none "x").polarity ≤ 1) := by
  have hp : (combineSentimentResults (.ok { polarity := some 10, confidence := some 5 })
      .err .err .err none none "x").polarity = 3 := by
    simp only [combineSentimentResults, overallPolarity, polarityList, passPolarityTerms]
    norm_num
  have hc : (combineSentimentResults (.ok { polarity := some 10, confidence := some 5 })
      .err .err .err none none "x").confidence = 1.5 := by
    simp only [combineSentimentResults, overallConfidence, confidenceList, passConfidenceTerms]
    norm_num
  have hs : (combineSentimentResults (.ok { polarity := some 10, confidence := some 5 })
      .err .err .err none none "x").satisfaction = 3 := by
    show max 0 (overallPolarity _ _ _ _) = 3
    have : overallPolarity (.ok { polarity := some 10, confidence := some 5 })
        .err .err .err = 3 := hp
    rw [this]
    norm_num
  refine ⟨hp, hc, hs, ?_⟩
  rw [hp]
  norm_num

/-- **C3 (amended).**  Provided every available pass reports polarity in
`[-1,1]`, confidence in `[0,1]` and subjectivity in `[0,1]` (which the
deterministic VADER and TextBlob passes always do), and the sales-context
input is either absent or bounded (as `_analyze_sales_context` always
produces, see `analyzeSalesContext_bounded`), every scalar metric of the
combined score lies in its documented bound. -/
theorem c3_score_bounded_for_bounded_passes (o l v t : PassResult)
    (emotionsResult : Option (List (String × ℚ)))
    (salesContext : Option SalesMetrics) (message : String)
    (hpo : BoundedPM1 (polarityOf o)) (hpl : BoundedPM1 (polarityOf l))
    (hpv : BoundedPM1 (polarityOf v)) (hpt : BoundedPM1 (polarityOf t))
    (hco : Bounded01 (confidenceOf o)) (hcl : Bounded01 (confidenceOf l))
    (hcv : Bounded01 (confidenceOf v)) (hct : Bounded01 (confidenceOf t))
    (hsub : Bounded01 (subjectivityOf t))
    (hsales : ∀ m, salesContext = some m → SalesBounded m) :
    (-1 ≤ (combineSentimentResults o l v t emotionsResult salesContext message).polarity ∧
      (combineSentimentResults o l v t emotionsResult salesContext message).polarity ≤ 1) ∧
    (0 ≤ (combineSentimentResults o l v t emotionsResult salesContext message).confidence ∧
      (combineSentimentResults o l v t emotionsResult salesContext message).confidence ≤ 1) ∧
    (0 ≤ (combineSentimentResults o l v t emotionsResult salesContext message).subjectivity ∧
      (combineSentimentResults o l v t emotionsResult salesContext message).subjectivity ≤ 1) ∧
    (0 ≤ (combineSentimentResults o l v t emotionsResult salesContext message).intensity ∧
      (combineSentimentResults o l v t emotionsResult salesContext message).intensity ≤ 1) ∧
    (0 ≤ (combineSentimentResults o l v t emotionsResult salesContext message).satisfaction ∧
      (combineSentimentResults o l v t emotionsResult salesContext message).satisfaction ≤ 1) ∧
    (0 ≤ (combineSentimentResults o l v t emotionsResult salesContext message).urgency ∧
      (combineSentimentResults o l v t emotionsResult salesContext message).urgency ≤ 1) ∧
    (0 ≤ (combineSentimentResults o l v t emotionsResult salesContext message).engagement ∧
      (combineSentimentResults o l v t emotionsResult salesContext message).engagement ≤ 1) ∧
    (0 ≤ (combineSentimentResults o l v t emotionsResult salesContext message).purchase_intent ∧
      (combineSentimentResults o l v t emotionsResult salesContext message).purchase_intent ≤ 1) ∧
    (0 ≤ (combineSentimentResults o l v t emotionsResult salesContext message).objection_level ∧
      (combineSentimentResults o l v t emotionsResult salesContext message).objection_level ≤ 1) ∧
    (0 ≤ (combineSentimentResults o l v t emotionsResult salesContext message).trust_level ∧
      (combineSentimentResults o l v t emotionsResult salesContext message).trust_level ≤ 1) := by
  have hP := overallPolarity_bounds o l v t hpo hpl hpv hpt
  have hC := overallConfidence_bounds o l v t hco hcl hcv hct
  have hS := subjectivityFromTextblob_bounds t hsub
  have hSM : SalesBounded (salesContext.getD defaultSalesMetrics) := by
    cases hs : salesContext with
    | none =>
      refine ⟨?_, ?_, ?_, ?_, ?_⟩ <;> norm_num [defaultSalesMetrics]
    | some m => simpa using hsales m hs
  simp only [combineSentimentResults]
  refine ⟨hP, hC, hS, ?_, ?_, hSM.2.2.2.1, hSM.2.2.2.2, hSM.1, hSM.2.1, hSM.2.2.1⟩
  · exact ⟨abs_nonneg _, abs_le.mpr ⟨hP.1, hP.2⟩⟩
  · exact ⟨le_max_left 0 _, max_le (by norm_num) hP.2⟩

/-- Witness for `c3_score_bounded_for_bounded_passes` at a concrete
input: all four passes failed and the sales-context pass ran on the
message `"great"`. -/
theorem c3_score_bounded_witness :
    -1 ≤ (combineSentimentResults .err .err .err .err none
        (some (analyzeSalesContext "great")) "great").polarity ∧
    (combineSentimentResults .err .err .err .err none
        (some (analyzeSalesContext "great")) "great").polarity ≤ 1 := by
  have h := c3_score_bounded_for_bounded_passes .err .err .err .err none
    (some (analyzeSalesContext "great")) "great"
    boundedPM1_none boundedPM1_none boundedPM1_none boundedPM1_none
    bounded01_none bounded01_none bounded01_none bounded01_none
    bounded01_none
    (fun m hm => by
      injection hm with hm'
      exact hm' ▸ analyzeSalesContext_bounded "great")
  exact h.1

/-! ### Claim theorems for the sentiment history (C4, C10) -/

theorem updateHistory_eq {α : Type} (h : List α) (s : α) :
    updateHistory h s = (h ++ [s]).drop (h.length + 1 - 50) := by
  unfold updateHistory
  split
  · simp [List.length_append]
  · rename_i hlen
    simp only [List.length_append, List.length_cons, List.length_nil, not_lt] at hlen
    have h0 : h.length + 1 - 50 = 0 := by omega
    rw [h0, List.drop_zero]

theorem updateHistory_length_le {α : Type} (h : List α) (s : α) :
    (updateHistory h s).length ≤ 50 := by
  unfold updateHistory
  split
  · rename_i hlen
    simp only [List.length_drop]
    omega
  · rename_i hlen
    simp only [not_lt] at hlen
    omega

theorem foldl_updateHistory {α : Type} (l : List α) :
    ∀ h : List α, h.length ≤ 50 →
      List.foldl updateHistory h l = (h ++ l).drop (h.length + l.length - 50) := by
  induction l with
  | nil =>
    intro h hh
    simp only [List.foldl_nil, List.append_nil, List.length_nil, Nat.add_zero]
    have h0 : h.length - 50 = 0 := by omega
    rw [h0, List.drop_zero]
  | cons s l ih =>
    intro h hh
    rw [List.foldl_cons, ih (updateHistory h s) (updateHistory_length_le h s)]
    rw [updateHistory_eq]
    have hk : h.length + 1 - 50 ≤ (h ++ [s]).length := by
      simp only [List.length_append, List.length_cons, List.length_nil]
      omega
    rw [← List.drop_append_of_le_length hk, List.drop_drop]
    have harr : h ++ [s] ++ l = h ++ s :: l := by simp
    rw [harr]
    congr 1
    simp only [List.length_drop, List.length_append, List.length_cons, List.length_nil]
    omega

/-- **C4.**  Folding any arrival sequence of scores through the history
update of `analyze_message_sentiment` leaves at most 50 entries, and the
retained entries are exactly the most recent ones in arrival order
(`drop` keeps the suffix); in particular inserting a 51st score evicts
exactly the oldest entry (FIFO). -/
theorem c4_history_fifo_cap {α : Type} (l : List α) :
    (List.foldl updateHistory ([] : List α) l).length ≤ 50 ∧
    List.foldl updateHistory ([] : List α) l = l.drop (l.length - 50) ∧
    (l.length = 51 → List.foldl updateHistory ([] : List α) l = l.drop 1) := by
  have hmain := foldl_updateHistory l ([] : List α) (by simp)
  simp only [List.nil_append, List.length_nil, Nat.zero_add] at hmain
  refine ⟨?_, hmain, ?_⟩
  · rw [hmain]
    simp only [List.length_drop]
    omega
  · intro h51
    rw [hmain, h51]

/-- Witness for `c4_history_fifo_cap`: inserting 51 scores keeps exactly
the last 50 (here: 51 copies of `0`, dropping the first). -/
theorem c4_history_fifo_cap_witness :
    List.foldl updateHistory ([] : List ℚ) (List.replicate 51 0) =
      (List.replicate 51 (0 : ℚ)).drop 1 ∧
    (List.replicate 51 (0 : ℚ)).length = 51 :=
  ⟨(c4_history_fifo_cap (List.replicate 51 (0 : ℚ))).2.2 (by simp), by simp⟩

/-- **C10.**  For an empty or whitespace-only message,
`analyze_message_sentiment` returns the fixed neutral score and leaves
every conversation's sentiment history untouched (the neutral score is
never appended), so shift detection and the conversation summary never
observe entries for empty messages. -/
theorem c10_empty_message_frame (hists : String → List SentimentScoreR)
    (userId message : String) (o l v t : PassResult)
    (emotionsResult : Option (List (String × ℚ)))
    (h : pyStrip message = "") :
    (analyzeMessageSentiment hists userId message o l v t emotionsResult).1 = neutralScore ∧
    ∀ uid, (analyzeMessageSentiment hists userId message o l v t emotionsResult).2 uid =
      hists uid := by
  unfold analyzeMessageSentiment
  rw [h]
  simp

/-- Witness for `c10_empty_message_frame` at the whitespace-only message
`"   "`: the neutral score is returned and the (empty) history of any
room, e.g. `"other"`, is unchanged. -/
theorem c10_empty_message_frame_witness :
    (analyzeMessageSentiment (fun _ => []) "room1" "   " .err .err .err .err none).1 =
      neutralScore ∧
    (analyzeMessageSentiment (fun _ => []) "room1" "   " .err .err .err .err none).2
      "other" = [] := by
  have h := c10_empty_message_frame (fun _ => []) "room1" "   " .err .err .err .err none
    (by decide)
  exact ⟨h.1, h.2 "other"⟩

/-! ## Question generator (`question_generator.py`) -/

/-- The `ConversationStage` enum. -/
inductive ConversationStage where
  | opening
  | discovery
  | presentation
  | objectionHandling
  | closing
  | followUp
deriving DecidableEq

/-- The `QuestionType` enum. -/
inductive QuestionType where
  | openEnded
  | closedEnded
  | probing
  | clarifying
  | objectionHandling
  | closing
  | followUp
deriving DecidableEq

/-- The `Question` dataclass. -/
structure Question where
  question_id : String
  text : String
  question_type : QuestionType
  conversation_stage : ConversationStage
  context : String
  expected_response_type : String
  follow_up_questions : Option (List String) := none
  success_indicators : Option (List String) := none
  objection_handling : Bool := false
deriving DecidableEq

/-- The `ConversationContext` dataclass. -/
structure ConversationContext where
  stage : ConversationStage
  customer_sentiment : String
  customer_engagement : ℚ
  purchase_intent : ℚ
  objection_level : ℚ
  trust_level : ℚ
  topics_discussed : List String
  questions_asked : List String
  customer_responses : List String
  current_topic : String
  conversation_duration : ℚ
deriving DecidableEq

/-- The question-template table built by `_initialize_question_templates`
(`self.question_templates.get(context.stage, [])`: stages without an
entry, i.e. `follow_up`, give the empty list). -/
def questionTemplates : ConversationStage → List Question
  | .opening =>
    [{ question_id := "OPEN_001"
       text := "Hello! I'm here to help you find the perfect book. What brings you in today?"
       question_type := .openEnded
       conversation_stage := .opening
       context := "Initial greeting and discovery"
       expected_response_type := "customer_need"
       follow_up_questions := some ["What type of books do you usually enjoy reading?"]
       success_indicators := some ["specific interest", "book mention", "genre preference"] },
     { question_id := "OPEN_002"
       text := "Are you looking for something specific today, or would you like me to recommend some great books?"
       question_type := .closedEnded
       conversation_stage := .opening
       context := "Directive opening"
       expected_response_type := "yes_no_or_specific"
       follow_up_questions := some ["What genre interests you most?"] }]
  | .discovery =>
    [{ question_id := "DISC_001"
       text := "What's your favorite genre of books?"
       question_type := .openEnded
       conversation_stage := .discovery
       context := "Genre preference discovery"
       expected_response_type := "genre_preference"
       follow_up_questions := some ["Who are some of your favorite authors in that genre?"] },
     { question_id := "DISC_002"
       text := "Are you looking for fiction or non-fiction today?"
       question_type := .closedEnded
       conversation_stage := .discovery
       context := "Fiction vs non-fiction preference"
       expected_response_type := "fiction_or_nonfiction"
       follow_up_questions := some ["What topics interest you most in non-fiction?"] },
     { question_id := "DISC_003"
       text := "What's the last book you read that you really enjoyed?"
       question_type := .openEnded
       conversation_stage := .discovery
       context := "Reading history and preferences"
       expected_response_type := "book_title_and_reason"
       follow_up_questions := some ["What did you like most about that book?"] },
     { question_id := "DISC_004"
       text := "Are you looking for something light and entertaining, or more serious and thought-provoking?"
       question_type := .closedEnded
       conversation_stage := .discovery
       context := "Reading mood and tone preference"
       expected_response_type := "mood_preference"
       follow_up_questions := some ["What kind of stories usually capture your attention?"] }]
  | .presentation =>
    [{ question_id := "PRES_001"
       text := "Based on what you've told me, I think you'd really enjoy this book. Would you like me to tell you more about it?"
       question_type := .closedEnded
       conversation_stage := .presentation
       context := "Book recommendation presentation"
       expected_response_type := "yes_no"
       follow_up_questions := some ["What aspects of the book would you like to know more about?"] },
     { question_id := "PRES_002"
       text := "This book has received excellent reviews. Would you like to hear what other readers are saying about it?"
       question_type := .closedEnded
       conversation_stage := .presentation
       context := "Social proof presentation"
       expected_response_type := "yes_no"
       follow_up_questions := some ["Would you like to see some specific reviews?"] }]
  | .objectionHandling =>
    [{ question_id := "OBJ_001"
       text := "I understand your concern about the price. What if I could show you how this book provides value that far exceeds its cost?"
       question_type := .objectionHandling
       conversation_stage := .objectionHandling
       context := "Price objection handling"
       expected_response_type := "objection_response"
       objection_handling := true },
     { question_id := "OBJ_002"
       text := "That's a valid point. What specific aspects of the book are you unsure about?"
       question_type := .probing
       conversation_stage := .objectionHandling
       context := "Objection clarification"
       expected_response_type := "specific_concerns"
       objection_handling := true }]
  | .closing =>
    [{ question_id := "CLOSE_001"
       text := "This book seems like a perfect match for you. Would you like to take it home today?"
       question_type := .closing
       conversation_stage := .closing
       context := "Direct close"
       expected_response_type := "yes_no"
       follow_up_questions := some ["What payment method would you prefer?"] },
     { question_id := "CLOSE_002"
       text := "I can see you're really interested in this book. Shall we go ahead and get it for you?"
       question_type := .closing
       conversation_stage := .closing
       context := "Assumptive close"
       expected_response_type := "yes_no_or_concern" }]
  | .followUp => []

/-- The four discovery topics checked by `_determine_conversation_stage`. -/
def discoveryTopics : List String := ["genre", "author", "fiction", "non-fiction"]

/-- `_determine_conversation_stage` (lines 407–429). -/
def determineConversationStage (c : ConversationContext) : ConversationStage :=
  if c.objection_level > 0.6 then .objectionHandling
  else if c.purchase_intent > 0.7 ∧ c.trust_level > 0.6 ∧ c.questions_asked.length > 3 then
    .closing
  else if c.topics_discussed.length > 2 ∧
      ∃ tp ∈ discoveryTopics, tp ∈ c.topics_discussed then
    .presentation
  else if c.questions_asked.length < 3 then .discovery
  else .presentation

/-- Claim C2 as written: the presentation guard asks for at least three
*distinct* topics. -/
def nextStageClaimDistinct (c : ConversationContext) : ConversationStage :=
  if c.objection_level > 0.6 then .objectionHandling
  else if c.purchase_intent > 0.7 ∧ c.trust_level > 0.6 ∧ c.questions_asked.length > 3 then
    .closing
  else if c.topics_discussed.dedup.length ≥ 3 ∧
      ∃ tp ∈ discoveryTopics, tp ∈ c.topics_discussed then
    .presentation
  else if c.questions_asked.length < 3 then .discovery
  else .presentation

/-- `_is_question_suitable` (lines 551–566). -/
def isQuestionSuitable (q : Question) (c : ConversationContext) : Bool :=
  if q.objection_handling && decide (c.objection_level < 0.3) then false
  else if q.conversation_stage ≠ c.stage then false
  else if c.questions_asked.any (fun similar => strContains (pyLower q.text) similar) then false
  else true

/-- The generic fallback of `_generate_template_question`. -/
def genericQuestion (stage : ConversationStage) : Question :=
  { question_id := "GENERIC_001"
    text := "Tell me more about what you're looking for in a book."
    question_type := .openEnded
    conversation_stage := stage
    context := "Generic follow-up"
    expected_response_type := "general" }

/-- `_generate_template_question` (lines 516–549).  `random.choice` over
the non-empty suitable pool is modelled by an arbitrary index `pick`,
reduced modulo the pool size. -/
def generateTemplateQuestion (c : ConversationContext) (pick : ℕ) : Option Question :=
  if (questionTemplates c.stage).isEmpty then none
  else
    let suitable := (questionTemplates c.stage).filter
      (fun q => decide (q.text ∉ c.questions_asked) && isQuestionSuitable q c)
    if suitable.isEmpty then some (genericQuestion c.stage)
    else suitable[pick % suitable.length]?

/-- The dispatch of `generate_question` (lines 335–338): when an OpenAI
client is configured the AI pass's outcome is used *as is* (its
`_generate_ai_question` returns `None` on any failure, lines 512–514,
modelled by `aiResult = none`); only an unconfigured client reaches the
template path. -/
def selectQuestion (openaiConfigured : Bool) (aiResult : Option Question)
    (c : ConversationContext) (pick : ℕ) : Option Question :=
  if openaiConfigured then aiResult else generateTemplateQuestion c pick

/-! ### Claim theorems for the question generator (C2, C7) -/

/-- **C2 (counterexample).**  The claim's presentation guard requires at
least three *distinct* topics.  The code only checks
`len(context.topics_discussed) > 2` on the duplicates-allowed list: with
`topics_discussed = ["genre","genre","genre"]` (one distinct topic) and
no questions asked, the code yields `presentation` while the claim's
transition function yields `discovery`. -/
theorem c2_distinct_topics_counterexample :
    determineConversationStage
      { stage := .opening, customer_sentiment := "neutral", customer_engagement := 0.5,
        purchase_intent := 0.5, objection_level := 0, trust_level := 0.5,
        topics_discussed := ["genre", "genre", "genre"], questions_asked := [],
        customer_responses := [], current_topic := "", conversation_duration := 0 } =
      .presentation ∧
    nextStageClaimDistinct
      { stage := .opening, customer_sentiment := "neutral", customer_engagement := 0.5,
        purchase_intent := 0.5, objection_level := 0, trust_level := 0.5,
        topics_discussed := ["genre", "genre", "genre"], questions_asked := [],
        customer_responses := [], current_topic := "", conversation_duration := 0 } =
      .discovery ∧
    ConversationStage.presentation ≠ ConversationStage.discovery := by
  refine ⟨?_, ?_, by decide⟩
  · unfold determineConversationStage
    norm_num [discoveryTopics]
  · unfold nextStageClaimDistinct
    norm_num [List.dedup]

/-- **C2 (amended).**  The stage transition behaves exactly as the claim
says with one correction: the presentation guard counts the entries of
`topics_discussed` *including duplicates* (more than 2 entries), not
distinct entries.  The claim's two concrete examples hold as stated:
`objection_level = 0.8` always yields objection handling, and
purchase_intent 0.9 / trust 0.9 / 5 questions asked / objection 0.1
yields closing. -/
theorem c2_stage_transition (c : ConversationContext) :
    (c.objection_level > 0.6 → determineConversationStage c = .objectionHandling) ∧
    (¬c.objection_level > 0.6 →
      c.purchase_intent > 0.7 → c.trust_level > 0.6 → c.questions_asked.length > 3 →
      determineConversationStage c = .closing) ∧
    (¬c.objection_level > 0.6 →
      ¬(c.purchase_intent > 0.7 ∧ c.trust_level > 0.6 ∧ c.questions_asked.length > 3) →
      c.topics_discussed.length > 2 → (∃ tp ∈ discoveryTopics, tp ∈ c.topics_discussed) →
      determineConversationStage c = .presentation) ∧
    (¬c.objection_level > 0.6 →
      ¬(c.purchase_intent > 0.7 ∧ c.trust_level > 0.6 ∧ c.questions_asked.length > 3) →
      ¬(c.topics_discussed.length > 2 ∧ ∃ tp ∈ discoveryTopics, tp ∈ c.topics_discussed) →
      c.questions_asked.length < 3 → determineConversationStage c = .discovery) ∧
    (¬c.objection_level > 0.6 →
      ¬(c.purchase_intent > 0.7 ∧ c.trust_level > 0.6 ∧ c.questions_asked.length > 3) →
      ¬(c.topics_discussed.length > 2 ∧ ∃ tp ∈ discoveryTopics, tp ∈ c.topics_discussed) →
      ¬c.questions_asked.length < 3 → determineConversationStage c = .presentation) ∧
    (c.objection_level = 0.8 → determineConversationStage c = .objectionHandling) ∧
    (c.purchase_intent = 0.9 → c.trust_level = 0.9 → c.questions_asked.length = 5 →
      c.objection_level = 0.1 → determineConversationStage c = .closing) := by
  unfold determineConversationStage
  refine ⟨?_, ?_, ?_, ?_, ?_, ?_, ?_⟩
  · intro h1
    simp [h1]
  · intro h1 h2 h3 h4
    simp [h1, h2, h3, h4]
  · intro h1 h2 h3 h4
    simp only [if_neg h1, if_neg h2, if_pos (And.intro h3 h4)]
  · intro h1 h2 h3 h4
    simp only [if_neg h1, if_neg h2, if_neg h3, if_pos h4]
  · intro h1 h2 h3 h4
    simp only [if_neg h1, if_neg h2, if_neg h3, if_neg h4]
  · intro h1
    have : c.objection_level > 0.6 := by rw [h1]; norm_num
    simp [this]
  · intro h1 h2 h3 h4
    have ho : ¬c.objection_level > 0.6 := by rw [h4]; norm_num
    have hc : c.purchase_intent > 0.7 ∧ c.trust_level > 0.6 ∧ c.questions_asked.length > 3 := by
      refine ⟨by rw [h1]; norm_num, by rw [h2]; norm_num, by rw [h3]; norm_num⟩
    simp [ho, hc]

/-- Witness for `c2_stage_transition`, instantiating the two concrete
examples of the claim: a context with objection level 0.8, and the
closing context of the claim. -/
theorem c2_stage_transition_witness :
    determineConversationStage
      { stage := .opening, customer_sentiment := "neutral", customer_engagement := 0.5,
        purchase_intent := 0, objection_level := 0.8, trust_level := 0,
        topics_discussed := [], questions_asked := [], customer_responses := [],
        current_topic := "", conversation_duration := 0 } = .objectionHandling ∧
    determineConversationStage
      { stage := .opening, customer_sentiment := "neutral", customer_engagement := 0.5,
        purchase_intent := 0.9, objection_level := 0.1, trust_level := 0.9,
        topics_discussed := [], questions_asked := ["a", "b", "c", "d", "e"],
        customer_responses := [], current_topic := "", conversation_duration := 0 } =
      .closing := by
  constructor
  · exact (c2_stage_transition _).2.2.2.2.2.1 rfl
  · exact (c2_stage_transition _).2.2.2.2.2.2 rfl rfl rfl rfl

/-- **C7 (counterexample).**  The claim says that when the external
text-generation pass is configured but fails, generation falls back to
template selection and still returns a question.  On the code this is
false: with a configured client, `generate_question` uses the AI pass's
result unconditionally, and `_generate_ai_question` returns `None` on
failure — so no question is produced even though a template question was
available for the same context. -/
theorem c7_no_template_fallback_counterexample :
    selectQuestion true none
      { stage := .opening, customer_sentiment := "neutral", customer_engagement := 0.5,
        purchase_intent := 0.5, objection_level := 0, trust_level := 0.5,
        topics_discussed := [], questions_asked := [], customer_responses := [],
        current_topic := "", conversation_duration := 0 } 0 = none ∧
    (generateTemplateQuestion
      { stage := .opening, customer_sentiment := "neutral", customer_engagement := 0.5,
        purchase_intent := 0.5, objection_level := 0, trust_level := 0.5,
        topics_discussed := [], questions_asked := [], customer_responses := [],
        current_topic := "", conversation_duration := 0 } 0).isSome = true := by
  refine ⟨rfl, ?_⟩
  decide

/-- **C7 (amended).**  When the external pass is configured, its failure
(`None` result) yields no question — there is no fallback.  Template
selection is used exactly when the pass is not configured, and then a
question is always returned whenever the stage's template pool is
non-empty (a suitable template, or the generic fallback). -/
theorem c7_ai_failure_behaviour (c : ConversationContext) (pick : ℕ)
    (aiResult : Option Question) :
    selectQuestion true none c pick = none ∧
    selectQuestion false aiResult c pick = generateTemplateQuestion c pick ∧
    ((questionTemplates c.stage).isEmpty = false →
      (selectQuestion false aiResult c pick).isSome = true) := by
  refine ⟨rfl, rfl, ?_⟩
  intro hne
  show (generateTemplateQuestion c pick).isSome = true
  unfold generateTemplateQuestion
  rw [hne]
  simp only [Bool.false_eq_true, if_false]
  set suitable := (questionTemplates c.stage).filter
    (fun q => decide (q.text ∉ c.questions_asked) && isQuestionSuitable q c) with hsuit
  by_cases hs : suitable.isEmpty
  · simp [hs]
  · have hnil : suitable ≠ [] := by
      intro hn
      rw [hn] at hs
      simp at hs
    have hlen : 0 < suitable.length := List.length_pos.mpr hnil
    have hmod : pick % suitable.length < suitable.length := Nat.mod_lt _ hlen
    simp only [hs, Bool.false_eq_true, if_false]
    rw [List.getElem?_eq_getElem hmod]
    rfl

/-- Witness for `c7_ai_failure_behaviour` at a fresh opening context. -/
theorem c7_ai_failure_behaviour_witness :
    (selectQuestion false none
      { stage := .opening, customer_sentiment := "neutral", customer_engagement := 0.5,
        purchase_intent := 0.5, objection_level := 0, trust_level := 0.5,
        topics_discussed := [], questions_asked := [], customer_responses := [],
        current_topic := "", conversation_duration := 0 } 1).isSome = true :=
  (c7_ai_failure_behaviour
    { stage := .opening, customer_sentiment := "neutral", customer_engagement := 0.5,
      purchase_intent := 0.5, objection_level := 0, trust_level := 0.5,
      topics_discussed := [], questions_asked := [], customer_responses := [],
      current_topic := "", conversation_duration := 0 } 1 none).2.2 (by decide)

/-! ## Call summary generator (`call_summary_generator.py`) -/

/-- One transcript dictionary, with the keys the summary generator reads
(`.get` returning `None` on absence is modelled with `Option`). -/
structure TEntry where
  role : Option String := none
  message : Option String := none
  timestamp : Option Int := none
deriving DecidableEq

/-- One extracted objection dictionary (`_extract_objections`). -/
structure Objection where
  otype : String
  keyword : String
  message : String
  timestamp : Option Int
deriving DecidableEq

/-- One addressed-concern dictionary (`_identify_addressed_concerns`;
its constant `"addressed": True` key is omitted). -/
structure AddressedEntry where
  objection_type : String
  objection : String
  response : String
deriving DecidableEq

/-- `self.objection_keywords` of `CallSummaryGenerator.__init__`. -/
def summaryObjectionKeywords : List String :=
  ["expensive", "cost", "price", "afford", "budget",
   "not sure", "don't know", "maybe", "think about",
   "later", "busy", "no time", "already have",
   "don't need", "not interested", "concern", "worried"]

/-- `_categorize_objection` (lines 398–408). -/
def categorizeObjection (kw : String) : String :=
  if kw ∈ ["expensive", "cost", "price", "afford", "budget"] then "price"
  else if kw ∈ ["not sure", "don't know", "maybe", "think about"] then "uncertainty"
  else if kw ∈ ["later", "busy", "no time"] then "timing"
  else if kw ∈ ["already have", "don't need", "not interested"] then "need"
  else "general_concern"

/-- `customer_messages = [t for t in transcripts if t.get("role") == "user"]`. -/
def customerMessages (ts : List TEntry) : List TEntry :=
  ts.filter (fun t => t.role == some "user")

/-- `_extract_objections` (lines 382–396): for each customer message, the
first keyword (in table order) contained in the lower-cased message
yields one objection; the loop `break`s after the first hit. -/
def extractObjections (msgs : List TEntry) : List Objection :=
  msgs.filterMap (fun msg =>
    match summaryObjectionKeywords.find?
        (fun kw => strContains (pyLower (msg.message.getD "")) kw) with
    | some kw =>
      some { otype := categorizeObjection kw, keyword := kw,
             message := pyTake (msg.message.getD "") 200, timestamp := msg.timestamp }
    | none => none)

/-- The per-objection body of `_identify_addressed_concerns`
(lines 410–426): find the first transcript index whose `message` equals
the objection's message (`next(..., -1)`); if the next entry exists and
is an assistant message, produce the addressed record. -/
def addressedEntryFor (ts : List TEntry) (ob : Objection) : Option AddressedEntry :=
  match ts.findIdx? (fun t => t.message == some ob.message) with
  | some i =>
    match ts[i + 1]? with
    | some nxt =>
      if nxt.role == some "assistant" then
        some { objection_type := ob.otype, objection := pyTake ob.message 100,
               response := pyTake (nxt.message.getD "") 200 }
      else none
    | none => none
  | none => none

/-- `_identify_addressed_concerns` (lines 410–426). -/
def identifyAddressedConcerns (ts : List TEntry) (objs : List Objection) :
    List AddressedEntry :=
  objs.filterMap (addressedEntryFor ts)

/-- `_identify_unresolved_concerns` (lines 428–435): tags
`f"{type}: {keyword}"` of objections whose category has no addressed
entry; `list(set(...))` is modelled as deduplication keeping first
occurrences. -/
def identifyUnresolvedConcerns (objs : List Objection) (addr : List AddressedEntry) :
    List String :=
  (objs.filterMap (fun ob =>
    if ob.otype ∈ addr.map (fun a => a.objection_type) then none
    else some (ob.otype ++ ": " ++ ob.keyword))).dedup

/-- Spec-side (amended C8): is the *first* transcript entry carrying this
message text immediately followed by an assistant entry? -/
def firstOccFollowedByAssistant (ts : List TEntry) (m : String) : Bool :=
  match ts.findIdx? (fun t => t.message == some m) with
  | some i =>
    match ts[i + 1]? with
    | some nxt => nxt.role == some "assistant"
    | none => false
  | none => false

/-- Spec-side (claim C8 as written): the number of transcript positions
that raise an objection (customer message containing an objection
keyword) *and* are immediately followed by an assistant message. -/
def claimAddressedCount (ts : List TEntry) : ℕ :=
  (ts.enum.filter (fun p =>
    (p.2.role == some "user") &&
    (summaryObjectionKeywords.any
      (fun kw => strContains (pyLower (p.2.message.getD "")) kw)) &&
    (match ts[p.1 + 1]? with
     | some nxt => nxt.role == some "assistant"
     | none => false))).length

/-- The order snapshot read by `generate_summary` (keys actually used by
the outcome classification). -/
structure OrderSnap where
  order_status : Option String := none
  book_title : Option String := none
  total_amount : Option ℚ := none
deriving DecidableEq

/-- Python truthiness of an optional string (`None` and `""` are falsy). -/
def pyTruthyStr : Option String → Bool
  | none => false
  | some s => !(s == "")

/-- The outcome classification of `generate_summary` (lines 221–231):
success iff an order snapshot exists whose status is neither `"draft"`
nor missing; otherwise partial success iff it has a truthy book title;
otherwise information only. -/
def classifyCallOutcome : Option OrderSnap → String
  | none => "information_only"
  | some o =>
    if (match o.order_status with
        | some s => decide (s ≠ "draft")
        | none => false) then "success"
    else if pyTruthyStr o.book_title then "partial_success"
    else "information_only"

/-- `_estimate_satisfaction` (lines 462–468); the sentiment-data argument
is accepted but ignored, exactly as in the source. -/
def estimateSatisfaction (_sentimentData : List SentimentScoreR) (callOutcome : String) : ℚ :=
  if callOutcome = "success" then 0.8
  else if callOutcome = "partial_success" then 0.6
  else 0.5

/-! ### Helper lemmas for the call summary -/

theorem length_filterMap_eq_countP {α β : Type} (f : α → Option β) (l : List α) :
    (l.filterMap f).length = l.countP (fun a => (f a).isSome) := by
  induction l with
  | nil => rfl
  | cons a t ih =>
    cases hf : f a <;> simp [List.filterMap_cons, hf, List.countP_cons, ih]

theorem addressedEntryFor_isSome (ts : List TEntry) (ob : Objection) :
    (addressedEntryFor ts ob).isSome = firstOccFollowedByAssistant ts ob.message := by
  unfold addressedEntryFor firstOccFollowedByAssistant
  cases hidx : ts.findIdx? (fun t => t.message == some ob.message) with
  | none => rfl
  | some i =>
    cases hnxt : ts[i + 1]? with
    | none => simp [hnxt]
    | some nxt =>
      by_cases hrole : nxt.role == some "assistant" <;> simp [hnxt, hrole]

/-! ### Claim theorems for the call summary (C8, C9) -/

/-- **C8 (counterexample).**  The claim says an objection is addressed
exactly when the customer message *that raised it* is immediately
followed by an assistant message.  The code instead looks up the *first*
transcript entry with the same message text: in the transcript
[user "expensive", assistant "ok", user "expensive", user "bye"] two
objections are raised (both with message "expensive"); the second one's
raising message (index 2) is followed by a customer message, yet the
code counts both as addressed (2 entries), while the claim counts one. -/
theorem c8_duplicate_message_counterexample :
    (identifyAddressedConcerns
      [{ role := some "user", message := some "expensive" },
       { role := some "assistant", message := some "ok" },
       { role := some "user", message := some "expensive" },
       { role := some "user", message := some "bye" }]
      (extractObjections (customerMessages
        [{ role := some "user", message := some "expensive" },
         { role := some "assistant", message := some "ok" },
         { role := some "user", message := some "expensive" },
         { role := some "user", message := some "bye" }]))).length = 2 ∧
    claimAddressedCount
      [{ role := some "user", message := some "expensive" },
       { role := some "assistant", message := some "ok" },
       { role := some "user", message := some "expensive" },
       { role := some "user", message := some "bye" }] = 1 ∧
    (2 : ℕ) ≠ 1 := by
  refine ⟨by decide, by decide, by decide⟩

/-- **C8 (amended).**  An objection is counted as addressed exactly when
the *first* transcript entry whose message text equals the objection's
message is immediately followed (index+1) by an assistant entry — with
duplicate message texts, later raisings are credited to the first
occurrence.  The unresolved-concerns list consists exactly of the
deduplicated `"category: keyword"` tags of the objections whose category
has no addressed entry. -/
theorem c8_addressed_unresolved_characterisation (ts : List TEntry) :
    (identifyAddressedConcerns ts (extractObjections (customerMessages ts))).length =
      (extractObjections (customerMessages ts)).countP
        (fun ob => firstOccFollowedByAssistant ts ob.message) ∧
    ∀ u, u ∈ identifyUnresolvedConcerns (extractObjections (customerMessages ts))
            (identifyAddressedConcerns ts (extractObjections (customerMessages ts))) ↔
      ∃ ob ∈ extractObjections (customerMessages ts),
        ob.otype ∉ (identifyAddressedConcerns ts
            (extractObjections (customerMessages ts))).map (fun a => a.objection_type) ∧
        u = ob.otype ++ ": " ++ ob.keyword := by
  constructor
  · rw [identifyAddressedConcerns, length_filterMap_eq_countP]
    apply List.countP_congr
    intro ob _
    simp [addressedEntryFor_isSome]
  · intro u
    unfold identifyUnresolvedConcerns
    rw [List.mem_dedup, List.mem_filterMap]
    constructor
    · rintro ⟨ob, hob, hfo⟩
      by_cases hmem : ob.otype ∈ (identifyAddressedConcerns ts
          (extractObjections (customerMessages ts))).map (fun a => a.objection_type)
      · rw [if_pos hmem] at hfo
        exact absurd hfo (by simp)
      · rw [if_neg hmem] at hfo
        exact ⟨ob, hob, hmem, (Option.some_inj.mp hfo).symm⟩
    · rintro ⟨ob, hob, hmem, hu⟩
      exact ⟨ob, hob, by rw [if_neg hmem, hu]⟩

/-- Witness for `c8_addressed_unresolved_characterisation` at the
four-entry transcript of the counterexample, instantiating the
membership equivalence at the tag `"price: expensive"` (whose category
*is* addressed there, so it is not unresolved). -/
theorem c8_characterisation_witness :
    (identifyAddressedConcerns
      [{ role := some "user", message := some "expensive" },
       { role := some "assistant", message := some "ok" },
       { role := some "user", message := some "expensive" },
       { role := some "user", message := some "bye" }]
      (extractObjections (customerMessages
        [{ role := some "user", message := some "expensive" },
         { role := some "assistant", message := some "ok" },
         { role := some "user", message := some "expensive" },
         { role := some "user", message := some "bye" }]))).length =
      (extractObjections (customerMessages
        [{ role := some "user", message := some "expensive" },
         { role := some "assistant", message := some "ok" },
         { role := some "user", message := some "expensive" },
         { role := some "user", message := some "bye" }])).countP
        (fun ob => firstOccFollowedByAssistant
          [{ role := some "user", message := some "expensive" },
           { role := some "assistant", message := some "ok" },
           { role := some "user", message := some "expensive" },
           { role := some "user", message := some "bye" }] ob.message) :=
  (c8_addressed_unresolved_characterisation
    [{ role := some "user", message := some "expensive" },
     { role := some "assistant", message := some "ok" },
     { role := some "user", message := some "expensive" },
     { role := some "user", message := some "bye" }]).1

/-- **C9.**  For an order snapshot carrying a status string `s`, the call
outcome is `"success"` exactly when `s ≠ "draft"`; otherwise it is
`"partial_success"` exactly when the snapshot has a (truthy) book title,
and `"information_only"` otherwise.  The estimated satisfaction is fixed
by the outcome: 0.8 / 0.6 / 0.5, for any sentiment data. -/
theorem estimateSatisfaction_cases (sd : List SentimentScoreR) :
    estimateSatisfaction sd "success" = 0.8 ∧
    estimateSatisfaction sd "partial_success" = 0.6 ∧
    estimateSatisfaction sd "information_only" = 0.5 := by
  refine ⟨?_, ?_, ?_⟩ <;> unfold estimateSatisfaction
  · rw [if_pos rfl]
  · rw [if_neg (by decide), if_pos rfl]
  · rw [if_neg (by decide), if_neg (by decide)]

/-- **C9.**  For an order snapshot carrying a status string `s`, the call
outcome is `"success"` exactly when `s ≠ "draft"`; otherwise it is
`"partial_success"` exactly when the snapshot has a (truthy) book title,
and `"information_only"` otherwise.  The estimated satisfaction is fixed
by the outcome: 0.8 / 0.6 / 0.5, for any sentiment data. -/
theorem c9_outcome_and_satisfaction (o : OrderSnap) (s : String)
    (hs : o.order_status = some s) (sd : List SentimentScoreR) :
    (classifyCallOutcome (some o) = "success" ↔ s ≠ "draft") ∧
    (s = "draft" →
      (classifyCallOutcome (some o) = "partial_success" ↔ pyTruthyStr o.book_title = true)) ∧
    (s = "draft" → pyTruthyStr o.book_title = false →
      classifyCallOutcome (some o) = "information_only") ∧
    (classifyCallOutcome (some o) = "success" →
      estimateSatisfaction sd (classifyCallOutcome (some o)) = 0.8) ∧
    (classifyCallOutcome (some o) = "partial_success" →
      estimateSatisfaction sd (classifyCallOutcome (some o)) = 0.6) ∧
    (classifyCallOutcome (some o) = "information_only" →
      estimateSatisfaction sd (classifyCallOutcome (some o)) = 0.5) := by
  have hsat := estimateSatisfaction_cases sd
  by_cases hd : s = "draft"
  · subst hd
    by_cases hb : pyTruthyStr o.book_title = true
    · have hcls : classifyCallOutcome (some o) = "partial_success" := by
        simp [classifyCallOutcome, hs, hb]
      rw [hcls]
      refine ⟨by decide, fun _ => ⟨fun _ => hb, fun _ => rfl⟩, ?_, ?_,
        fun _ => hsat.2.1, ?_⟩
      · intro _ hb2
        rw [hb2] at hb
        cases hb
      · intro h
        exact absurd h (by decide)
      · intro h
        exact absurd h (by decide)
    · have hb2 : pyTruthyStr o.book_title = false := by
        cases hpp : pyTruthyStr o.book_title
        · rfl
        · exact absurd hpp hb
      have hcls : classifyCallOutcome (some o) = "information_only" := by
        simp [classifyCallOutcome, hs, hb2]
      rw [hcls]
      refine ⟨by decide, fun _ => ⟨fun h => absurd h (by decide), fun hbb => absurd hbb hb⟩,
        fun _ _ => rfl, ?_, ?_, fun _ => hsat.2.2⟩
      · intro h
        exact absurd h (by decide)
      · intro h
        exact absurd h (by decide)
  · have hcls : classifyCallOutcome (some o) = "success" := by
      simp [classifyCallOutcome, hs, hd]
    rw [hcls]
    refine ⟨⟨fun _ => hd, fun _ => rfl⟩, fun hdd => absurd hdd hd, fun hdd => absurd hdd hd,
      fun _ => hsat.1, ?_, ?_⟩
    · intro h
      exact absurd h (by decide)
    · intro h
      exact absurd h (by decide)

/-- Witness for `c9_outcome_and_satisfaction` at a confirmed order with a
book title: the outcome is `"success"` and satisfaction 0.8. -/
theorem c9_outcome_witness :
    classifyCallOutcome (some ⟨some "confirmed", some "The Hobbit", none⟩) = "success" ∧
    estimateSatisfaction []
      (classifyCallOutcome (some ⟨some "confirmed", some "The Hobbit", none⟩)) = 0.8 := by
  have h := c9_outcome_and_satisfaction
    ⟨some "confirmed", some "The Hobbit", none⟩ "confirmed" rfl []
  have hsucc := h.1.mpr (by decide)
  exact ⟨hsucc, h.2.2.2.1 hsucc⟩

/-! ## A small regex engine (Python `re.search` semantics)

`extract_order_data` in `backend/main.py` is a cascade of
`re.search` calls.  The engine below implements exactly the features its
patterns use: character classes, concatenation, ordered alternation,
greedy and lazy counted repetition, capturing groups, `\b`, `$` and the
global `(?i)` flag (case-insensitive matching that still captures the
original text).  Matching is backtracking CPS with a fuel parameter
(`reMatch` only recurses on smaller fuel, and the fuel supplied by
`reSearchAux` is far larger than any possible recursion depth for these
patterns, whose repetition bodies all consume at least one character). -/

/-- One atom of a character class. -/
inductive CCAtom where
  | lit (c : Char)
  | range (lo hi : Char)
  | ws
  | digit
deriving DecidableEq

/-- Does a class atom match a character (case-sensitively)? -/
def ccAtomHit : CCAtom → Char → Bool
  | .lit a, c => a = c
  | .range lo hi, c => lo ≤ c && c ≤ hi
  | .ws, c => isWsChar c
  | .digit, c => '0' ≤ c && c ≤ '9'

/-- A character class, possibly negated (`[^...]`). -/
structure CharCls where
  neg : Bool := false
  atoms : List CCAtom
deriving DecidableEq

/-- Class matching under `re.IGNORECASE`: a character hits if it or a
case variant hits an atom (negation applied afterwards, as in Python). -/
def clsHit (cc : CharCls) (c : Char) : Bool :=
  let hit := cc.atoms.any
    (fun a => ccAtomHit a c || ccAtomHit a (charLower c) || ccAtomHit a (charUpper c))
  if cc.neg then !hit else hit

/-- Python word character (`\b` boundary test): `[A-Za-z0-9_]`. -/
def isWordCh (c : Char) : Bool :=
  ('a' ≤ c && c ≤ 'z') || ('A' ≤ c && c ≤ 'Z') || ('0' ≤ c && c ≤ '9') || c = '_'

/-- Regex abstract syntax.  `rep a lo hi lazy` is `a{lo,hi}` (`hi = none`
for unbounded); `grp i a` is the `i`-th capturing group; `eos` is `$`
(end of string, or just before a final newline, as in Python without
`re.MULTILINE`). -/
inductive RE where
  | eps
  | cls (cc : CharCls)
  | seq (a b : RE)
  | alt (a b : RE)
  | rep (a : RE) (lo : ℕ) (hi : Option ℕ) (lazy : Bool)
  | grp (idx : ℕ) (a : RE)
  | wordB
  | eos

/-- Recorded captures: group index and captured characters (later
completions of a group are prepended, so lookup by first hit returns the
last successful capture, as in Python). -/
abbrev Caps := List (ℕ × List Char)

/-- A matching continuation: remaining input, previous character (for
`\b`), captures so far. -/
abbrev MatchCont := List Char → Option Char → Caps → Option Caps

/-- The backtracking matcher.  Alternatives are tried left to right;
greedy repetition prefers consuming, lazy repetition prefers stopping —
Python's backtracking preference order. -/
def reMatch : ℕ → RE → List Char → Option Char → Caps → MatchCont → Option Caps
  | 0, _, _, _, _, _ => none
  | fuel + 1, re, s, prev, caps, k =>
    match re with
    | .eps => k s prev caps
    | .cls cc =>
      match s with
      | [] => none
      | c :: rest => if clsHit cc c then k rest (some c) caps else none
    | .seq a b =>
      reMatch fuel a s prev caps (fun s2 p2 c2 => reMatch fuel b s2 p2 c2 k)
    | .alt a b =>
      match reMatch fuel a s prev caps k with
      | some r => some r
      | none => reMatch fuel b s prev caps k
    | .grp i a =>
      reMatch fuel a s prev caps
        (fun s2 p2 c2 => k s2 p2 ((i, s.take (s.length - s2.length)) :: c2))
    | .wordB =>
      let lw := match prev with | some c => isWordCh c | none => false
      let rw := match s with | c :: _ => isWordCh c | [] => false
      if lw != rw then k s prev caps else none
    | .eos =>
      match s with
      | [] => k s prev caps
      | [c] => if c = '\n' then k s prev caps else none
      | _ => none
    | .rep a lo hi lz =>
      match hi with
      | some 0 => if lo = 0 then k s prev caps else none
      | _ =>
        let hi2 : Option ℕ := hi.map (fun n => n - 1)
        if 0 < lo then
          reMatch fuel a s prev caps
            (fun s2 p2 c2 => reMatch fuel (.rep a (lo - 1) hi2 lz) s2 p2 c2 k)
        else if lz then
          match k s prev caps with
          | some r => some r
          | none =>
            reMatch fuel a s prev caps
              (fun s2 p2 c2 => reMatch fuel (.rep a 0 hi2 lz) s2 p2 c2 k)
        else
          match reMatch fuel a s prev caps
              (fun s2 p2 c2 => reMatch fuel (.rep a 0 hi2 lz) s2 p2 c2 k) with
          | some r => some r
          | none => k s prev caps

/-- The accepting top-level continuation of `re.search` (a match may end
anywhere). -/
def matchTopCont : MatchCont := fun _ _ caps => some caps

/-- `re.search`: try to match at each start position, left to right. -/
def reSearchAux (re : RE) : List Char → Option Char → Option Caps
  | s, prev =>
    match reMatch (4 * s.length + 1000) re s prev [] matchTopCont with
    | some caps => some caps
    | none =>
      match s with
      | [] => none
      | c :: rest => reSearchAux re rest (some c)

/-- `re.search(pattern, text)`, returning the captures of the first
match. -/
def reSearch (re : RE) (text : String) : Option Caps :=
  reSearchAux re text.data none

/-- `match.group(1)`: `none` models Python's `IndexError` when the
pattern has no group 1. -/
def group1 (caps : Caps) : Option String :=
  (caps.find? (fun p => p.1 = 1)).map (fun p => String.mk p.2)

/-- The `for pattern in patterns: ... if match: break` cascade. -/
def firstSearch (pats : List RE) (text : String) : Option Caps :=
  match pats with
  | [] => none
  | p :: rest =>
    match reSearch p text with
    | some caps => some caps
    | none => firstSearch rest text

/-! ### Pattern construction helpers -/

/-- A positive character class. -/
def ccOf (atoms : List CCAtom) : RE := .cls { neg := false, atoms := atoms }

/-- A negated character class. -/
def nccOf (atoms : List CCAtom) : RE := .cls { neg := true, atoms := atoms }

/-- A literal string (each character a one-element class; matching is
case-insensitive through `clsHit`, like `(?i)`). -/
def rLit (s : String) : RE :=
  s.data.foldr (fun c acc => RE.seq (ccOf [.lit c]) acc) RE.eps

/-- Ordered alternation of a list. -/
def rAltL : List RE → RE
  | [] => .eps
  | [r] => r
  | r :: rest => .alt r (rAltL rest)

/-- Sequence of a list. -/
def rSeqL : List RE → RE
  | [] => .eps
  | [r] => r
  | r :: rest => .seq r (rSeqL rest)

/-- `\s*`. -/
def wsStar : RE := .rep (ccOf [.ws]) 0 none false

/-- `\s+`. -/
def wsPlus : RE := .rep (ccOf [.ws]) 1 none false

/-- A single `\s`. -/
def wsOne : RE := ccOf [.ws]

/-- `r?`. -/
def rOpt (r : RE) : RE := .rep r 0 (some 1) false

/-- `[a-zA-Z]`. -/
def alphaCls : List CCAtom := [.range 'a' 'z', .range 'A' 'Z']

/-- `[a-zA-Z\s']`. -/
def nameTailCls : List CCAtom := [.range 'a' 'z', .range 'A' 'Z', .ws, .lit '\'']

/-- `\s*[:\-]?\s*`. -/
def colonDashOpt : RE := rSeqL [wsStar, rOpt (ccOf [.lit ':', .lit '-']), wsStar]

/-- `([A-Z][a-z]+(?:\s+[A-Z][a-z]+)*)` — a capitalized word sequence
(group 1). -/
def capitalizedSeqGrp : RE :=
  .grp 1 (rSeqL [ccOf [.range 'A' 'Z'], .rep (ccOf [.range 'a' 'z']) 1 none false,
    .rep (rSeqL [wsPlus, ccOf [.range 'A' 'Z'], .rep (ccOf [.range 'a' 'z']) 1 none false])
      0 none false])

/-! ### The patterns of `extract_order_data` (main.py lines 438–625) -/

/-- Name pattern 1:
`(?i)(?:customer\s*name\s*[:\-]\s*|my\s+name\s+is\s+|i\s+am\s+|this\s+is\s+|call\s+me\s+)([a-zA-Z][a-zA-Z\s']{2,40})`. -/
def namePat1 : RE :=
  .seq (rAltL [
      rSeqL [rLit "customer", wsStar, rLit "name", wsStar, ccOf [.lit ':', .lit '-'], wsStar],
      rSeqL [rLit "my", wsPlus, rLit "name", wsPlus, rLit "is", wsPlus],
      rSeqL [rLit "i", wsPlus, rLit "am", wsPlus],
      rSeqL [rLit "this", wsPlus, rLit "is", wsPlus],
      rSeqL [rLit "call", wsPlus, rLit "me", wsPlus]])
    (.grp 1 (.seq (ccOf alphaCls) (.rep (ccOf nameTailCls) 2 (some 40) false)))

/-- Name pattern 2 (greetings):
`(?i)(?:hello\s+|hi\s+|good\s+(?:morning|afternoon|evening)\s+)?([A-Z][a-z]+(?:\s+[A-Z][a-z]+)*),?`. -/
def namePat2 : RE :=
  rSeqL [
    rOpt (rAltL [.seq (rLit "hello") wsPlus, .seq (rLit "hi") wsPlus,
      rSeqL [rLit "good", wsPlus, rAltL [rLit "morning", rLit "afternoon", rLit "evening"],
        wsPlus]]),
    capitalizedSeqGrp,
    rOpt (rLit ",")]

/-- Name pattern 3:
`(?i)(?:speaking\s+with\s+|talking\s+to\s+)([a-zA-Z][a-zA-Z\s']{2,40})`. -/
def namePat3 : RE :=
  .seq (rAltL [
      rSeqL [rLit "speaking", wsPlus, rLit "with", wsPlus],
      rSeqL [rLit "talking", wsPlus, rLit "to", wsPlus]])
    (.grp 1 (.seq (ccOf alphaCls) (.rep (ccOf nameTailCls) 2 (some 40) false)))

/-- `(?:\s*number)?` inside the contact pattern. -/
def numberOptRE : RE := rOpt (.seq wsStar (rLit "number"))

/-- Customer id / contact pattern:
`(?i)(?:id\s*[:\-]?\s*|contact(?:\s*number)?\s*[:\-]?\s*|phone(?:\s*number)?\s*[:\-]?\s*|mobile(?:\s*number)?\s*[:\-]?\s*)([\d\-\s]{6,20})`. -/
def customerIdPat : RE :=
  .seq (rAltL [
      .seq (rLit "id") colonDashOpt,
      rSeqL [rLit "contact", numberOptRE, colonDashOpt],
      rSeqL [rLit "phone", numberOptRE, colonDashOpt],
      rSeqL [rLit "mobile", numberOptRE, colonDashOpt]])
    (.grp 1 (.rep (ccOf [.digit, .lit '-', .ws]) 6 (some 20) false))

/-- The quote class of title pattern 1.  In the source the pattern is
built by adjacent-string concatenation and denotes
`[''"]([^''"][^\n]{1,80})[''"]` — the class is `{'\'', '"'}`. -/
def quoteCls : List CCAtom := [.lit '\'', .lit '"']

/-- Title pattern 1 (quoted titles). -/
def titlePat1 : RE :=
  rSeqL [ccOf quoteCls,
    .grp 1 (.seq (nccOf quoteCls) (.rep (nccOf [.lit '\n']) 1 (some 80) false)),
    ccOf quoteCls]

/-- `([a-zA-Z][^\n]{1,80}?)` — the lazy title body (group 1). -/
def titleBody : RE :=
  .grp 1 (.seq (ccOf alphaCls) (.rep (nccOf [.lit '\n']) 1 (some 80) true))

/-- `(?:\s*by\s|\s*author|\.|,|$)` — the title terminator. -/
def titleEnd : RE :=
  rAltL [rSeqL [wsStar, rLit "by", wsOne], .seq wsStar (rLit "author"),
    rLit ".", rLit ",", .eos]

/-- `(?:\s*by\s|\s*author|\.|,|\?|$)` — the terminator of title pattern 5. -/
def titleEndQ : RE :=
  rAltL [rSeqL [wsStar, rLit "by", wsOne], .seq wsStar (rLit "author"),
    rLit ".", rLit ",", rLit "?", .eos]

/-- Title pattern 2:
`(?i)(?:book\s*(?:is|title|called)\s*[:\-]?\s*)([a-zA-Z][^\n]{1,80}?)(?:\s*by\s|\s*author|\.|,|$)`. -/
def titlePat2 : RE :=
  rSeqL [rLit "book", wsStar, rAltL [rLit "is", rLit "title", rLit "called"],
    colonDashOpt, titleBody, titleEnd]

/-- Title pattern 3:
`(?i)(?:looking\s+for\s+|want\s+(?:the\s+)?book\s+|interested\s+in\s+)(...)(...)`. -/
def titlePat3 : RE :=
  rSeqL [rAltL [
      rSeqL [rLit "looking", wsPlus, rLit "for", wsPlus],
      rSeqL [rLit "want", wsPlus, rOpt (.seq (rLit "the") wsPlus), rLit "book", wsPlus],
      rSeqL [rLit "interested", wsPlus, rLit "in", wsPlus]],
    titleBody, titleEnd]

/-- Title pattern 4: `(?i)(?:recommend\s+|suggest\s+)(...)(...)`. -/
def titlePat4 : RE :=
  rSeqL [rAltL [.seq (rLit "recommend") wsPlus, .seq (rLit "suggest") wsPlus],
    titleBody, titleEnd]

/-- Title pattern 5: `(?i)(?:have\s+you\s+read\s+|what\s+about\s+)(...)(...|\?|$)`. -/
def titlePat5 : RE :=
  rSeqL [rAltL [
      rSeqL [rLit "have", wsPlus, rLit "you", wsPlus, rLit "read", wsPlus],
      rSeqL [rLit "what", wsPlus, rLit "about", wsPlus]],
    titleBody, titleEndQ]

/-- Author pattern 1:
`(?i)(?:author\s*[:\-]?\s*|by\s+|written\s*by\s*)([a-zA-Z][a-zA-Z\s']{2,40})`. -/
def authorPat1 : RE :=
  .seq (rAltL [
      .seq (rLit "author") colonDashOpt,
      .seq (rLit "by") wsPlus,
      rSeqL [rLit "written", wsStar, rLit "by", wsStar]])
    (.grp 1 (.seq (ccOf alphaCls) (.rep (ccOf nameTailCls) 2 (some 40) false)))

/-- Author pattern 2: `(?i)([A-Z][a-z]+(?:\s+[A-Z][a-z]+)*)'s\s+(?:book|novel|work)`. -/
def authorPat2 : RE :=
  rSeqL [capitalizedSeqGrp, rLit "'s", wsPlus, rAltL [rLit "book", rLit "novel", rLit "work"]]

/-- Author pattern 3: `(?i)(?:from\s+author\s+)([a-zA-Z][a-zA-Z\s']{2,40})`. -/
def authorPat3 : RE :=
  rSeqL [rLit "from", wsPlus, rLit "author", wsPlus,
    .grp 1 (.seq (ccOf alphaCls) (.rep (ccOf nameTailCls) 2 (some 40) false))]

/-- Genre pattern:
`(?i)(?:genre\s*[:\-]?\s*|category\s*[:\-]?\s*)(fiction|non-fiction|mystery|romance|thriller|sci-fi|fantasy|biography|history|self-help|business|children|young-adult)`. -/
def genrePat : RE :=
  .seq (rAltL [.seq (rLit "genre") colonDashOpt, .seq (rLit "category") colonDashOpt])
    (.grp 1 (rAltL [rLit "fiction", rLit "non-fiction", rLit "mystery", rLit "romance",
      rLit "thriller", rLit "sci-fi", rLit "fantasy", rLit "biography", rLit "history",
      rLit "self-help", rLit "business", rLit "children", rLit "young-adult"]))

/-- `(\b\d{1,3}\b)` — captured bounded digit run. -/
def digitsGrp : RE :=
  .grp 1 (rSeqL [.wordB, .rep (ccOf [.digit]) 1 (some 3) false, .wordB])

/-- `(?:copies?|units?|books?|pieces?)`. -/
def unitsRE : RE :=
  rAltL [.seq (rLit "copie") (rOpt (rLit "s")), .seq (rLit "unit") (rOpt (rLit "s")),
    .seq (rLit "book") (rOpt (rLit "s")), .seq (rLit "piece") (rOpt (rLit "s"))]

/-- Quantity pattern 1:
`(?i)(?:quantity\s*[:\-]?\s*|need\s+|want\s+|order\s+)(\b\d{1,3}\b)\s*(?:copies?|units?|books?|pieces?)`. -/
def qtyPat1 : RE :=
  rSeqL [rAltL [.seq (rLit "quantity") colonDashOpt,
      .seq (rLit "need") wsPlus, .seq (rLit "want") wsPlus, .seq (rLit "order") wsPlus],
    digitsGrp, wsStar, unitsRE]

/-- Quantity pattern 2:
`(?i)(\b\d{1,3}\b)\s*(?:copies?|units?|books?|pieces?)\s*(?:of|please)`. -/
def qtyPat2 : RE :=
  rSeqL [digitsGrp, wsStar, unitsRE, wsStar, rAltL [rLit "of", rLit "please"]]

/-- Quantity pattern 3:
`(?i)(?:buy|purchase|get)\s+(\b\d{1,3}\b)\s*(?:copies?|units?|books?)`. -/
def qtyPat3 : RE :=
  rSeqL [rAltL [rLit "buy", rLit "purchase", rLit "get"], wsPlus, digitsGrp, wsStar,
    rAltL [.seq (rLit "copie") (rOpt (rLit "s")), .seq (rLit "unit") (rOpt (rLit "s")),
      .seq (rLit "book") (rOpt (rLit "s"))]]

/-- `(?:one|two|...|ten)` in pattern order. -/
def numWordsRE : RE :=
  rAltL [rLit "one", rLit "two", rLit "three", rLit "four", rLit "five",
    rLit "six", rLit "seven", rLit "eight", rLit "nine", rLit "ten"]

/-- Quantity pattern 4 (word numbers — note: *no capturing group*):
`(?i)(?:one|two|three|four|five|six|seven|eight|nine|ten)\s+(?:copies?|books?)`. -/
def qtyPat4 : RE :=
  rSeqL [numWordsRE, wsPlus,
    rAltL [.seq (rLit "copie") (rOpt (rLit "s")), .seq (rLit "book") (rOpt (rLit "s"))]]

/-- Word-quantity fallback pattern:
`(?i)\b(one|two|three|four|five|six|seven|eight|nine|ten)\b\s*(?:copies?|books?)`. -/
def wordQtyPat : RE :=
  rSeqL [.wordB, .grp 1 numWordsRE, .wordB, wsStar,
    rAltL [.seq (rLit "copie") (rOpt (rLit "s")), .seq (rLit "book") (rOpt (rLit "s"))]]

/-- The payment vocabulary of payment pattern 1. -/
def payAlt1 : RE :=
  rAltL [rLit "online", rLit "card",
    rSeqL [rLit "credit", wsStar, rLit "card"], rSeqL [rLit "debit", wsStar, rLit "card"],
    .seq (rLit "cash") (rOpt (rSeqL [wsStar, rLit "on", wsStar, rLit "delivery"])),
    rLit "cod", rLit "upi", rLit "netbanking", rLit "paypal", rLit "gpay",
    rLit "phonepe", rLit "paytm"]

/-- Payment pattern 1:
`(?i)(?:payment\s*(?:method|option)?\s*[:\-]?\s*|pay\s*(?:by|with|using)\s*|paying\s*(?:by|with)\s*)(...)`. -/
def payPat1 : RE :=
  .seq (rAltL [
      rSeqL [rLit "payment", wsStar, rOpt (rAltL [rLit "method", rLit "option"]), colonDashOpt],
      rSeqL [rLit "pay", wsStar, rAltL [rLit "by", rLit "with", rLit "using"], wsStar],
      rSeqL [rLit "paying", wsStar, rAltL [rLit "by", rLit "with"], wsStar]])
    (.grp 1 payAlt1)

/-- Payment pattern 2:
`(?i)\b(credit\s*card|debit\s*card|cash|upi|netbanking|paypal|gpay|phonepe|paytm|cod)\b`. -/
def payPat2 : RE :=
  rSeqL [.wordB, .grp 1 (rAltL [rSeqL [rLit "credit", wsStar, rLit "card"],
    rSeqL [rLit "debit", wsStar, rLit "card"], rLit "cash", rLit "upi", rLit "netbanking",
    rLit "paypal", rLit "gpay", rLit "phonepe", rLit "paytm", rLit "cod"]), .wordB]

/-- Payment pattern 3:
`(?i)(?:accept\s+|take\s+)(credit\s*card|debit\s*card|cash|upi|digital\s*payment)`. -/
def payPat3 : RE :=
  rSeqL [rAltL [.seq (rLit "accept") wsPlus, .seq (rLit "take") wsPlus],
    .grp 1 (rAltL [rSeqL [rLit "credit", wsStar, rLit "card"],
      rSeqL [rLit "debit", wsStar, rLit "card"], rLit "cash", rLit "upi",
      rSeqL [rLit "digital", wsStar, rLit "payment"]])]

/-- `store_pickup` cues: `(?i)pickup|pick\s*up|store\s*pickup|collect|come\s*and\s*get`. -/
def storePickupPat : RE :=
  rAltL [rLit "pickup", rSeqL [rLit "pick", wsStar, rLit "up"],
    rSeqL [rLit "store", wsStar, rLit "pickup"], rLit "collect",
    rSeqL [rLit "come", wsStar, rLit "and", wsStar, rLit "get"]]

/-- `home_delivery` cues:
`(?i)home\s*delivery|deliver\s*to\s*home|home\s*address|ship\s*to\s*home`. -/
def homeDeliveryPat : RE :=
  rAltL [rSeqL [rLit "home", wsStar, rLit "delivery"],
    rSeqL [rLit "deliver", wsStar, rLit "to", wsStar, rLit "home"],
    rSeqL [rLit "home", wsStar, rLit "address"],
    rSeqL [rLit "ship", wsStar, rLit "to", wsStar, rLit "home"]]

/-- `express_delivery` cues: `(?i)express|fast|urgent|quick\s*delivery|same\s*day`. -/
def expressDeliveryPat : RE :=
  rAltL [rLit "express", rLit "fast", rLit "urgent",
    rSeqL [rLit "quick", wsStar, rLit "delivery"], rSeqL [rLit "same", wsStar, rLit "day"]]

/-- `([^\n]{lo,hi})` (greedy). -/
def nonNlGrp (lo hi : ℕ) : RE := .grp 1 (.rep (nccOf [.lit '\n']) lo (some hi) false)

/-- Address pattern 1:
`(?i)(?:address\s*[:\-]?\s*|deliver\s*to\s*|ship\s*to\s*|my\s*address\s*is\s*)([^\n]{10,120})`. -/
def addressPat1 : RE :=
  .seq (rAltL [
      .seq (rLit "address") colonDashOpt,
      rSeqL [rLit "deliver", wsStar, rLit "to", wsStar],
      rSeqL [rLit "ship", wsStar, rLit "to", wsStar],
      rSeqL [rLit "my", wsStar, rLit "address", wsStar, rLit "is", wsStar]])
    (nonNlGrp 10 120)

/-- Address pattern 2:
`(?i)(?:live\s*(?:at|in)\s*|staying\s*(?:at|in)\s*)([^\n]{10,120})`. -/
def addressPat2 : RE :=
  .seq (rAltL [
      rSeqL [rLit "live", wsStar, rAltL [rLit "at", rLit "in"], wsStar],
      rSeqL [rLit "staying", wsStar, rAltL [rLit "at", rLit "in"], wsStar]])
    (nonNlGrp 10 120)

/-- Special-request pattern 1:
`(?i)(?:special\s*request\s*[:\-]?\s*|note\s*[:\-]?\s*|instruction\s*[:\-]?\s*|please\s*note\s*[:\-]?\s*)([^\n]{5,200})`. -/
def specialPat1 : RE :=
  .seq (rAltL [
      rSeqL [rLit "special", wsStar, rLit "request", colonDashOpt],
      .seq (rLit "note") colonDashOpt,
      .seq (rLit "instruction") colonDashOpt,
      rSeqL [rLit "please", wsStar, rLit "note", colonDashOpt]])
    (nonNlGrp 5 200)

/-- Special-request pattern 2:
`(?i)(?:also\s*|additionally\s*|by\s*the\s*way\s*|oh\s*and\s*)([^\n]{5,200})`. -/
def specialPat2 : RE :=
  .seq (rAltL [.seq (rLit "also") wsStar, .seq (rLit "additionally") wsStar,
      rSeqL [rLit "by", wsStar, rLit "the", wsStar, rLit "way", wsStar],
      rSeqL [rLit "oh", wsStar, rLit "and", wsStar]])
    (nonNlGrp 5 200)

/-- Special-request pattern 3:
`(?i)(?:make\s*sure\s*|ensure\s*|remember\s*to\s*)([^\n]{5,200})`. -/
def specialPat3 : RE :=
  .seq (rAltL [rSeqL [rLit "make", wsStar, rLit "sure", wsStar],
      .seq (rLit "ensure") wsStar, rSeqL [rLit "remember", wsStar, rLit "to", wsStar]])
    (nonNlGrp 5 200)

/-! ### `extract_order_data` itself -/

/-- One transcript item (`TranscriptItem` model: role + message). -/
structure TranscriptItem where
  role : String
  message : String
deriving DecidableEq

/-- The `OrderData` fields produced by `extract_order_data`. -/
structure OrderData where
  order_id : Option String
  customer_id : Option String
  customer_name : Option String
  book_title : Option String
  author : Option String
  genre : Option String
  quantity : Option ℕ
  unit_price : ℚ
  total_amount : Option ℚ
  payment_method : Option String
  delivery_option : String
  delivery_address : Option String
  order_status : String
  order_date : Option String
  special_requests : Option String
deriving DecidableEq

/-- `full_text = "\n".join([t.message for t in transcripts])`. -/
def fullTextOf (ts : List TranscriptItem) : String :=
  joinNl (ts.map (fun t => t.message))

/-- The `word_to_num` table (`.get(..., '1')`). -/
def wordToNum (w : String) : String :=
  if w = "one" then "1" else if w = "two" then "2" else if w = "three" then "3"
  else if w = "four" then "4" else if w = "five" then "5" else if w = "six" then "6"
  else if w = "seven" then "7" else if w = "eight" then "8" else if w = "nine" then "9"
  else if w = "ten" then "10" else "1"

/-- The quantity-match cascade, including the word-number fallback
(`MockMatch`).  A match of pattern 4 (which has no group 1) makes
`qty_match.group(1)` raise `IndexError`, swallowed by the surrounding
`except` — hence `none`. -/
def qtyGroupOf (txt : String) : Option String :=
  match firstSearch [qtyPat1, qtyPat2, qtyPat3, qtyPat4] txt with
  | some caps => group1 caps
  | none =>
    match reSearch wordQtyPat txt with
    | some caps => (group1 caps).map (fun w => wordToNum (pyLower w))
    | none => none

/-- The delivery-option scan, in dictionary insertion order. -/
def deliveryOptionFound (txt : String) : Option String :=
  if (reSearch storePickupPat txt).isSome then some "store_pickup"
  else if (reSearch homeDeliveryPat txt).isSome then some "home_delivery"
  else if (reSearch expressDeliveryPat txt).isSome then some "express_delivery"
  else none

/-- `extract_order_data` (main.py lines 438–625). -/
def extractOrderData (transcripts : List TranscriptItem) : OrderData :=
  let fullText := fullTextOf transcripts
  let nameMatch := firstSearch [namePat1, namePat2, namePat3] fullText
  let customerIdMatch := reSearch customerIdPat fullText
  let titleMatch := firstSearch [titlePat1, titlePat2, titlePat3, titlePat4, titlePat5] fullText
  let authorMatch := firstSearch [authorPat1, authorPat2, authorPat3] fullText
  let genreMatch := reSearch genrePat fullText
  let payMatch := firstSearch [payPat1, payPat2, payPat3] fullText
  let deliveryOption := (deliveryOptionFound fullText).getD "home_delivery"
  let deliveryAddress :=
    if deliveryOption = "home_delivery" then
      (firstSearch [addressPat1, addressPat2] fullText).bind
        (fun caps => (group1 caps).map pyStrip)
    else none
  let specialMatch := firstSearch [specialPat1, specialPat2, specialPat3] fullText
  let quantityVal : Option ℕ := (qtyGroupOf fullText).bind pyToNat
  let unitPrice : ℚ := 15.99
  { order_id := none
    customer_id := customerIdMatch.bind (fun caps => (group1 caps).map pyStrip)
    customer_name := nameMatch.bind (fun caps => (group1 caps).map pyStrip)
    book_title := titleMatch.map (fun caps => pyStrip ((group1 caps).getD ""))
    author := authorMatch.bind (fun caps => (group1 caps).map pyStrip)
    genre := genreMatch.bind (fun caps => (group1 caps).map pyLower)
    quantity := quantityVal
    unit_price := unitPrice
    total_amount :=
      match quantityVal with
      | some q => if q ≠ 0 then some ((q : ℚ) * unitPrice) else none
      | none => none
    payment_method := payMatch.bind (fun caps => (group1 caps).map pyLower)
    delivery_option := deliveryOption
    delivery_address := deliveryAddress
    order_status := "draft"
    order_date := none
    special_requests := specialMatch.bind (fun caps => (group1 caps).map pyStrip) }

/-! ### Claim theorems for the order extractor (C5, C6) -/

/-- **C5 (counterexample).**  On the transcript with messages
`"my name is Priya"`, `"2 copies"`, `"pay by card"` the extractor
returns customer_name `"Priya"`, payment_method `"card"`,
delivery_option `"home_delivery"` and order_status `"draft"` as claimed —
but quantity is `None`, not 2: a bare `"2 copies"` matches none of the
quantity patterns (pattern 1 needs a quantity/need/want/order prefix,
pattern 2 a following `of`/`please`, pattern 3 a buy/purchase/get
prefix, and pattern 4 only spells out word numbers). -/
theorem c5_priya_quantity_counterexample :
    (extractOrderData [⟨"user", "my name is Priya"⟩, ⟨"user", "2 copies"⟩,
      ⟨"user", "pay by card"⟩]).customer_name = some "Priya" ∧
    (extractOrderData [⟨"user", "my name is Priya"⟩, ⟨"user", "2 copies"⟩,
      ⟨"user", "pay by card"⟩]).quantity = none ∧
    (extractOrderData [⟨"user", "my name is Priya"⟩, ⟨"user", "2 copies"⟩,
      ⟨"user", "pay by card"⟩]).payment_method = some "card" ∧
    (extractOrderData [⟨"user", "my name is Priya"⟩, ⟨"user", "2 copies"⟩,
      ⟨"user", "pay by card"⟩]).delivery_option = "home_delivery" ∧
    (extractOrderData [⟨"user", "my name is Priya"⟩, ⟨"user", "2 copies"⟩,
      ⟨"user", "pay by card"⟩]).order_status = "draft" ∧
    (none : Option ℕ) ≠ some 2 := by
  refine ⟨by decide, by decide, by decide, by decide, rfl, by decide⟩

/-- **C5 (amended).**  The Priya transcript yields customer_name
`"Priya"`, quantity `None` (no quantity pattern matches a bare
`"2 copies"`), payment_method `"card"`, delivery_option
`"home_delivery"` and order_status `"draft"`. -/
theorem c5_priya_extraction :
    (extractOrderData [⟨"user", "my name is Priya"⟩, ⟨"user", "2 copies"⟩,
      ⟨"user", "pay by card"⟩]).customer_name = some "Priya" ∧
    (extractOrderData [⟨"user", "my name is Priya"⟩, ⟨"user", "2 copies"⟩,
      ⟨"user", "pay by card"⟩]).quantity = none ∧
    (extractOrderData [⟨"user", "my name is Priya"⟩, ⟨"user", "2 copies"⟩,
      ⟨"user", "pay by card"⟩]).payment_method = some "card" ∧
    (extractOrderData [⟨"user", "my name is Priya"⟩, ⟨"user", "2 copies"⟩,
      ⟨"user", "pay by card"⟩]).delivery_option = "home_delivery" ∧
    (extractOrderData [⟨"user", "my name is Priya"⟩, ⟨"user", "2 copies"⟩,
      ⟨"user", "pay by card"⟩]).order_status = "draft" := by
  refine ⟨by decide, by decide, by decide, by decide, rfl⟩

/-- **C6.**  The extractor is a pure, deterministic, total function of
the transcript (a Lean function by construction — it cannot raise):
running it twice gives identical results; `order_status` is always
`"draft"` (and `order_id` / `order_date` are never set by extraction);
`delivery_option` defaults to `"home_delivery"` whenever no
pickup/home/express cue matches; and every pattern-extracted field whose
patterns all fail to match is left null. -/
theorem c6_extractor_totality_and_defaults (ts : List TranscriptItem) :
    extractOrderData ts = extractOrderData ts ∧
    (extractOrderData ts).order_status = "draft" ∧
    (extractOrderData ts).order_id = none ∧
    (extractOrderData ts).order_date = none ∧
    (deliveryOptionFound (fullTextOf ts) = none →
      (extractOrderData ts).delivery_option = "home_delivery") ∧
    (firstSearch [namePat1, namePat2, namePat3] (fullTextOf ts) = none →
      (extractOrderData ts).customer_name = none) ∧
    (reSearch customerIdPat (fullTextOf ts) = none →
      (extractOrderData ts).customer_id = none) ∧
    (firstSearch [titlePat1, titlePat2, titlePat3, titlePat4, titlePat5]
        (fullTextOf ts) = none →
      (extractOrderData ts).book_title = none) ∧
    (firstSearch [authorPat1, authorPat2, authorPat3] (fullTextOf ts) = none →
      (extractOrderData ts).author = none) ∧
    (reSearch genrePat (fullTextOf ts) = none →
      (extractOrderData ts).genre = none) ∧
    (firstSearch [qtyPat1, qtyPat2, qtyPat3, qtyPat4] (fullTextOf ts) = none →
      reSearch wordQtyPat (fullTextOf ts) = none →
      (extractOrderData ts).quantity = none ∧ (extractOrderData ts).total_amount = none) ∧
    (firstSearch [payPat1, payPat2, payPat3] (fullTextOf ts) = none →
      (extractOrderData ts).payment_method = none) ∧
    (firstSearch [addressPat1, addressPat2] (fullTextOf ts) = none →
      (extractOrderData ts).delivery_address = none) ∧
    (firstSearch [specialPat1, specialPat2, specialPat3] (fullTextOf ts) = none →
      (extractOrderData ts).special_requests = none) := by
  refine ⟨rfl, rfl, rfl, rfl, ?_, ?_, ?_, ?_, ?_, ?_, ?_, ?_, ?_, ?_⟩
  · intro h
    simp [extractOrderData, h]
  · intro h
    simp [extractOrderData, h]
  · intro h
    simp [extractOrderData, h]
  · intro h
    simp [extractOrderData, h]
  · intro h
    simp [extractOrderData, h]
  · intro h
    simp [extractOrderData, h]
  · intro h1 h2
    constructor
    · simp [extractOrderData, qtyGroupOf, h1, h2]
    · simp [extractOrderData, qtyGroupOf, h1, h2]
  · intro h
    simp [extractOrderData, h]
  · intro h
    simp [extractOrderData, h]
  · intro h
    simp [extractOrderData, h]

/-- Witness for `c6_extractor_totality_and_defaults` at the empty
transcript: every search fails, so every pattern field is null, the
delivery option is the default and the status is `"draft"`. -/
theorem c6_extractor_witness :
    (extractOrderData []).customer_name = none ∧
    (extractOrderData []).quantity = none ∧
    (extractOrderData []).delivery_option = "home_delivery" ∧
    (extractOrderData []).order_status = "draft" := by
  have h := c6_extractor_totality_and_defaults []
  exact ⟨h.2.2.2.2.2.1 (by decide),
    (h.2.2.2.2.2.2.2.2.2.2.1 (by decide) (by decide)).1,
    h.2.2.2.2.1 (by decide), h.2.1⟩

end AiSales
